import Mathlib

/-!
Shallow embedding of openvpn/tun/win/client/tunsetup.hpp: the Windows
client tun setup.  The Vista+ variant of adapter_config translates a
pulled VPN configuration (TunBuilderCapture) into ordered create /
destroy action lists; TunWin::Setup owns the armed destroy list and
exposes establish / destroy.
-/

namespace TunWin

/-- A unit of configuration change queued by adapter_config: the netsh /
ipconfig shell commands (WinCmd), the stale-route cleanup
(Util::ActionDeleteAllRoutesOnInterface), the NRPT registry actions and
the WFP leak-protection filter action. -/
inductive Action where
  | deleteAllRoutesOnInterface (ifIndex : Nat)
  | winCmd (cmd : String)
  | nrptCreate (dsfx : List String) (dserv : List String)
  | nrptDelete
  | wfp (appPath : String) (ifIndex : Nat) (enable : Bool)
  deriving DecidableEq, Repr

/-- TunBuilderCapture::RouteAddress: the per-family ifconfig entry
(vpn_ipv4 / vpn_ipv6) with address, prefix length, gateway and the
net30 topology flag. -/
structure RouteAddress where
  address : String
  prefixLen : Nat
  gateway : String
  net30 : Bool
  deriving DecidableEq, Repr

/-- TunBuilderCapture::Route: an add_routes / exclude_routes entry. -/
structure Route where
  address : String
  prefixLen : Nat
  ipv6 : Bool
  deriving DecidableEq, Repr

/-- TunBuilderCapture::RemoteAddress: the VPN server address. -/
structure RemoteAddress where
  address : String
  ipv6 : Bool
  deriving DecidableEq, Repr

/-- TunBuilderCapture::DNSServer entry. -/
structure DNSServer where
  address : String
  ipv6 : Bool
  deriving DecidableEq, Repr

/-- TunBuilderCapture::SearchDomain entry. -/
structure SearchDomain where
  domain : String
  deriving DecidableEq, Repr

/-- TunBuilderCapture::WINSServer entry. -/
structure WINSServer where
  address : String
  deriving DecidableEq, Repr

/-- TunBuilderCapture::RerouteGW: per-family redirect-gateway flags. -/
structure RerouteGW where
  ipv4 : Bool
  ipv6 : Bool
  deriving DecidableEq, Repr

/-- The pulled VPN configuration (TunBuilderCapture) as read by
adapter_config: vpn_ipv4() / vpn_ipv6() are the optional per-family
ifconfig entries. -/
structure TunBuilderCapture where
  vpn_ipv4 : Option RouteAddress
  vpn_ipv6 : Option RouteAddress
  block_ipv6 : Bool
  add_routes : List Route
  exclude_routes : List Route
  reroute_gw : RerouteGW
  dns_servers : List DNSServer
  search_domains : List SearchDomain
  wins_servers : List WINSServer
  remote_address : RemoteAddress
  deriving DecidableEq, Repr

/-- Util::DefaultGateway when defined(): interface index and address. -/
structure Gateway where
  interface_index : Nat
  gateway_address : String
  deriving DecidableEq, Repr

/-- The read-only external world adapter_config and establish query:
the opened TAP adapter (tap.index and tap.index_or_name()), the default
gateway, the Windows version predicates, whether a TAP handle can be
acquired, and the outcome of executing one action against the host. -/
structure Env where
  tap_index : Nat
  tap_index_name : String
  gw : Option Gateway
  isWindowsVistaOrGreater : Bool
  isWindows7OrGreater : Bool
  isWindows8OrGreater : Bool
  tapOk : Bool
  exec : Action → Bool

/-- Errors thrown while building the sequences: the two tun_win_setup
throws of adapter_config, plus nullDeref marking the undefined behavior
where the redirect-gateway block reads local4->gateway while local4 is
null (lines 291-294 of the source). -/
inductive TunError where
  | missingIfconfig
  | gatewayDetection
  | nullDeref
  deriving DecidableEq, Repr

/-- Output of one block of adapter_config: the create and destroy
actions it adds, and the error it throws, if any. -/
structure StepOut where
  create : List Action
  destroy : List Action
  err : Option TunError
  deriving DecidableEq, Repr

/-- Sequential composition of two policy blocks: a throw in the first
aborts everything after it, keeping the action lists built so far (the
C++ mutates the shared create / destroy ActionLists in place). -/
def StepOut.seq (s t : StepOut) : StepOut :=
  match s.err with
  | some _ => s
  | none => ⟨s.create ++ t.create, s.destroy ++ t.destroy, t.err⟩

/-- Dotted-quad rendering of a 32-bit IPv4 address value. -/
def ipv4ToString (v : Nat) : String :=
  toString (v / 16777216 % 256) ++ "." ++ toString (v / 65536 % 256) ++ "."
    ++ toString (v / 256 % 256) ++ "." ++ toString (v % 256)

/-- IPv4::Addr::netmask_from_prefix_len(p).to_string(): the mask with
the high p bits set, rendered dotted-quad. -/
def netmaskString (p : Nat) : String :=
  ipv4ToString (2 ^ 32 - 2 ^ (32 - p))

/-- Special IPv6 next-hop recognized by the TAP driver. -/
def ipv6_next_hop : String := "fe80::8"

/-- Block: try to delete any stale routes left on the interface from a
previous session; queued on create with no destroy counterpart. -/
def staleRouteStep (tapIndex : Nat) : StepOut :=
  ⟨[.deleteAllRoutesOnInterface tapIndex], [], none⟩

/-- Block: set the IPv4 interface address when vpn_ipv4() is present,
with the matching delete queued on destroy. -/
def ipv4AddressStep (tin : String) (pull : TunBuilderCapture) : StepOut :=
  match pull.vpn_ipv4 with
  | none => ⟨[], [], none⟩
  | some local4 =>
    let netmask := netmaskString local4.prefixLen
    ⟨[.winCmd ("netsh interface ip set address " ++ tin ++ " static "
        ++ local4.address ++ " " ++ netmask ++ " gateway=" ++ local4.gateway
        ++ " store=active")],
     [.winCmd ("netsh interface ip delete address " ++ tin ++ " "
        ++ local4.address ++ " gateway=all store=active")],
     none⟩

/-- The three reserved IPv6 ranges blackholed when block_ipv6 is set. -/
def block_ipv6_net : List String := ["2000::/4", "3000::/4", "fc00::/7"]

/-- The blackhole route-add commands queued for the block_ipv6_net
ranges, on interface 1. -/
def blackholeAddCmds : List Action :=
  block_ipv6_net.map (fun n =>
    .winCmd ("netsh interface ipv6 add route " ++ n ++ " interface=1 store=active"))

/-- The matching blackhole route-delete commands. -/
def blackholeDeleteCmds : List Action :=
  block_ipv6_net.map (fun n =>
    .winCmd ("netsh interface ipv6 delete route " ++ n ++ " interface=1 store=active"))

/-- Block: when block_ipv6 is set, blackhole the three reserved ranges
on interface 1, each with a matching delete. -/
def blockIpv6Step (pull : TunBuilderCapture) : StepOut :=
  if pull.block_ipv6 then ⟨blackholeAddCmds, blackholeDeleteCmds, none⟩
  else ⟨[], [], none⟩

/-- Block: set the IPv6 interface address and the route to the TAP
driver's reserved link-local next hop, when vpn_ipv6() is present and
IPv6 is not blocked. -/
def ipv6AddressStep (tin : String) (pull : TunBuilderCapture) : StepOut :=
  match pull.vpn_ipv6 with
  | some local6 =>
    if !pull.block_ipv6 then
      ⟨[.winCmd ("netsh interface ipv6 set address " ++ tin ++ " "
          ++ local6.address ++ " store=active"),
        .winCmd ("netsh interface ipv6 add route " ++ local6.gateway ++ "/"
          ++ toString local6.prefixLen ++ " " ++ tin ++ " " ++ ipv6_next_hop
          ++ " store=active")],
       [.winCmd ("netsh interface ipv6 delete address " ++ tin ++ " "
          ++ local6.address ++ " store=active"),
        .winCmd ("netsh interface ipv6 delete route " ++ local6.gateway ++ "/"
          ++ toString local6.prefixLen ++ " " ++ tin ++ " " ++ ipv6_next_hop
          ++ " store=active")],
       none⟩
    else ⟨[], [], none⟩
  | none => ⟨[], [], none⟩

/-- Loop body of the add_routes block: IPv6 routes go to the reserved
next hop unless blocked; IPv4 routes require vpn_ipv4() and throw
tun_win_setup (missingIfconfig) otherwise. -/
def addRouteActions (tin : String) (local4 : Option RouteAddress)
    (blockIpv6 : Bool) : List Route → StepOut
  | [] => ⟨[], [], none⟩
  | r :: rs =>
    if r.ipv6 then
      let head : StepOut :=
        if !blockIpv6 then
          ⟨[.winCmd ("netsh interface ipv6 add route " ++ r.address ++ "/"
              ++ toString r.prefixLen ++ " " ++ tin ++ " " ++ ipv6_next_hop
              ++ " store=active")],
           [.winCmd ("netsh interface ipv6 delete route " ++ r.address ++ "/"
              ++ toString r.prefixLen ++ " " ++ tin ++ " " ++ ipv6_next_hop
              ++ " store=active")],
           none⟩
        else ⟨[], [], none⟩
      head.seq (addRouteActions tin local4 blockIpv6 rs)
    else
      match local4 with
      | some l4 =>
        (StepOut.seq
          ⟨[.winCmd ("netsh interface ip add route " ++ r.address ++ "/"
              ++ toString r.prefixLen ++ " " ++ tin ++ " " ++ l4.gateway
              ++ " store=active")],
           [.winCmd ("netsh interface ip delete route " ++ r.address ++ "/"
              ++ toString r.prefixLen ++ " " ++ tin ++ " " ++ l4.gateway
              ++ " store=active")],
           none⟩)
          (addRouteActions tin local4 blockIpv6 rs)
      | none => ⟨[], [], some .missingIfconfig⟩

/-- Block: process pushed routes. -/
def addRoutesStep (tin : String) (pull : TunBuilderCapture) : StepOut :=
  addRouteActions tin pull.vpn_ipv4 pull.block_ipv6 pull.add_routes

/-- Loop body of the exclude-routes block: IPv4 excludes via the
original gateway; IPv6 excludes only set the warning flag. -/
def excludeRouteActions (gwIf : Nat) (gwAddr : String) :
    List Route → List Action × List Action
  | [] => ([], [])
  | r :: rs =>
    let rest := excludeRouteActions gwIf gwAddr rs
    if r.ipv6 then rest
    else
      (.winCmd ("netsh interface ip add route " ++ r.address ++ "/"
          ++ toString r.prefixLen ++ " " ++ toString gwIf ++ " " ++ gwAddr
          ++ " store=active") :: rest.1,
       .winCmd ("netsh interface ip delete route " ++ r.address ++ "/"
          ++ toString r.prefixLen ++ " " ++ toString gwIf ++ " " ++ gwAddr
          ++ " store=active") :: rest.2)

/-- Block: process exclude routes; with no detectable default gateway
this is a warning, not a failure. -/
def excludeRoutesStep (gw : Option Gateway) (pull : TunBuilderCapture) : StepOut :=
  if pull.exclude_routes.isEmpty then ⟨[], [], none⟩
  else
    match gw with
    | some g =>
      let p := excludeRouteActions g.interface_index g.gateway_address pull.exclude_routes
      ⟨p.1, p.2, none⟩
    | none => ⟨[], [], none⟩

/-- Block: IPv4 redirect-gateway.  With no default gateway this throws
tun_win_setup (gatewayDetection); with one, the server bypass host
route is queued only when the remote address is IPv4, and then the two
split-default routes are built from local4->gateway, reading through
the pointer unconditionally (nullDeref when vpn_ipv4() is absent). -/
def redirectGateway4Step (gw : Option Gateway) (tin : String)
    (pull : TunBuilderCapture) : StepOut :=
  if pull.reroute_gw.ipv4 then
    match gw with
    | none => ⟨[], [], some .gatewayDetection⟩
    | some g =>
      let bypass : List Action × List Action :=
        if !pull.remote_address.ipv6 then
          ([.winCmd ("netsh interface ip add route " ++ pull.remote_address.address
              ++ "/32 " ++ toString g.interface_index ++ " " ++ g.gateway_address
              ++ " store=active")],
           [.winCmd ("netsh interface ip delete route " ++ pull.remote_address.address
              ++ "/32 " ++ toString g.interface_index ++ " " ++ g.gateway_address
              ++ " store=active")])
        else ([], [])
      match pull.vpn_ipv4 with
      | none => ⟨bypass.1, bypass.2, some .nullDeref⟩
      | some local4 =>
        ⟨bypass.1 ++
          [.winCmd ("netsh interface ip add route 0.0.0.0/1 " ++ tin ++ " "
              ++ local4.gateway ++ " store=active"),
           .winCmd ("netsh interface ip add route 128.0.0.0/1 " ++ tin ++ " "
              ++ local4.gateway ++ " store=active")],
         bypass.2 ++
          [.winCmd ("netsh interface ip delete route 0.0.0.0/1 " ++ tin ++ " "
              ++ local4.gateway ++ " store=active"),
           .winCmd ("netsh interface ip delete route 128.0.0.0/1 " ++ tin ++ " "
              ++ local4.gateway ++ " store=active")],
         none⟩
  else ⟨[], [], none⟩

/-- Block: IPv6 redirect-gateway via the reserved next hop, skipped
when IPv6 is blocked. -/
def redirectGateway6Step (tin : String) (pull : TunBuilderCapture) : StepOut :=
  if pull.reroute_gw.ipv6 && !pull.block_ipv6 then
    ⟨[.winCmd ("netsh interface ipv6 add route 0::/1 " ++ tin ++ " "
        ++ ipv6_next_hop ++ " store=active"),
      .winCmd ("netsh interface ipv6 add route 8000::/1 " ++ tin ++ " "
        ++ ipv6_next_hop ++ " store=active")],
     [.winCmd ("netsh interface ipv6 delete route 0::/1 " ++ tin ++ " "
        ++ ipv6_next_hop ++ " store=active"),
      .winCmd ("netsh interface ipv6 delete route 8000::/1 " ++ tin ++ " "
        ++ ipv6_next_hop ++ " store=active")],
     none⟩
  else ⟨[], [], none⟩

/-- Loop of the DNS-servers block, carrying the per-family counters
(post-increment: the first server of a family gets the set command and
the delete-all destroy; later ones only an add command, with no destroy
counterpart of their own).  The per-family proto string of the C++
("ipv6" or "ip") is inlined into the two branches.  Returns the created
and destroyed actions and the final counters. -/
def dnsServerActions (tin dnsCmd validateCmd : String) (blockIpv6 : Bool) :
    List DNSServer → Nat → Nat → List Action × List Action × Nat × Nat
  | [], i4, i6 => ([], [], i4, i6)
  | ds :: rest, i4, i6 =>
    if ds.ipv6 && blockIpv6 then dnsServerActions tin dnsCmd validateCmd blockIpv6 rest i4 i6
    else if ds.ipv6 then
      let r := dnsServerActions tin dnsCmd validateCmd blockIpv6 rest i4 (i6 + 1)
      if i6 ≠ 0 then
        (.winCmd ("netsh interface ipv6 add " ++ (dnsCmd ++ " " ++ tin
            ++ " " ++ ds.address ++ " " ++ toString (i6 + 1) ++ validateCmd)) :: r.1,
         r.2.1, r.2.2)
      else
        (.winCmd ("netsh interface ipv6 set " ++ (dnsCmd ++ " " ++ tin
            ++ " static " ++ ds.address ++ " register=primary" ++ validateCmd)) :: r.1,
         .winCmd ("netsh interface ipv6 delete " ++ (dnsCmd ++ " " ++ tin
            ++ " all" ++ validateCmd)) :: r.2.1,
         r.2.2)
    else
      let r := dnsServerActions tin dnsCmd validateCmd blockIpv6 rest (i4 + 1) i6
      if i4 ≠ 0 then
        (.winCmd ("netsh interface ip add " ++ (dnsCmd ++ " " ++ tin
            ++ " " ++ ds.address ++ " " ++ toString (i4 + 1) ++ validateCmd)) :: r.1,
         r.2.1, r.2.2)
      else
        (.winCmd ("netsh interface ip set " ++ (dnsCmd ++ " " ++ tin
            ++ " static " ++ ds.address ++ " register=primary" ++ validateCmd)) :: r.1,
         .winCmd ("netsh interface ip delete " ++ (dnsCmd ++ " " ++ tin
            ++ " all" ++ validateCmd)) :: r.2.1,
         r.2.2)

/-- Loop body collecting one search domain into the NRPT suffix list:
empty domains are dropped and a domain is prefixed with a dot unless
its first character (dom[0] in the C++) already is one. -/
def normalizeDomain (sd : SearchDomain) : Option String :=
  if sd.domain.isEmpty then none
  else if sd.domain.data.head? = some '.' then some sd.domain
  else some ("." ++ sd.domain)

/-- Domain suffix list for the NRPT entry: empty unless neither family
redirects DNS, in which case the non-empty search domains are collected
with a leading separator; an empty collection falls back to the
wildcard. -/
def domainSuffixList (searchDomains : List SearchDomain)
    (redirDns4 redirDns6 : Bool) : List String :=
  let dsfx : List String :=
    if !redirDns4 && !redirDns6 then searchDomains.filterMap normalizeDomain
    else []
  if dsfx.isEmpty then ["."] else dsfx

/-- Block: DNS servers, the NRPT policy-table pair when the platform is
Windows 8+ and at least one server was added, and the WFP
leak-protection pair when additionally the application path is
non-empty. -/
def dnsStep (env : Env) (appPath : String) (pull : TunBuilderCapture) : StepOut :=
  let dnsCmd : String :=
    if env.isWindowsVistaOrGreater && !env.isWindows7OrGreater then "dnsserver"
    else "dnsservers"
  let validateCmd : String :=
    if env.isWindowsVistaOrGreater && !env.isWindows7OrGreater then ""
    else " validate=no"
  let use_nrpt := env.isWindows8OrGreater
  let r := dnsServerActions env.tap_index_name dnsCmd validateCmd pull.block_ipv6
    pull.dns_servers 0 0
  let i4 := r.2.2.1
  let i6 := r.2.2.2
  let nrptPair : List Action × List Action :=
    if use_nrpt && (i4 ≠ 0 || i6 ≠ 0) then
      let redirDns4 := pull.reroute_gw.ipv4 && i4 ≠ 0
      let redirDns6 := pull.reroute_gw.ipv6 && i6 ≠ 0
      let dsfx := domainSuffixList pull.search_domains redirDns4 redirDns6
      let dserv := pull.dns_servers.map (fun ds => ds.address)
      ([.nrptCreate dsfx dserv], [.nrptDelete])
    else ([], [])
  let wfpPair : List Action × List Action :=
    if env.isWindows8OrGreater && appPath ≠ "" && (i4 ≠ 0 || i6 ≠ 0) then
      ([.wfp appPath env.tap_index true], [.wfp appPath env.tap_index false])
    else ([], [])
  ⟨r.1 ++ nrptPair.1 ++ wfpPair.1, r.2.1 ++ nrptPair.2 ++ wfpPair.2, none⟩

/-- Loop of the WINS-servers block: the loop index plays the role of
the counter, with the first server getting set plus delete-all. -/
def winsServerActions (tin : String) : List WINSServer → Nat → List Action × List Action
  | [], _ => ([], [])
  | ws :: rest, i =>
    let r := winsServerActions tin rest (i + 1)
    if i ≠ 0 then
      (.winCmd ("netsh interface ip add winsservers " ++ tin ++ " " ++ ws.address
          ++ " " ++ toString (i + 1)) :: r.1, r.2)
    else
      (.winCmd ("netsh interface ip set winsservers " ++ tin ++ " static "
          ++ ws.address) :: r.1,
       .winCmd ("netsh interface ip delete winsservers " ++ tin ++ " all") :: r.2)

/-- Block: WINS servers. -/
def winsStep (tin : String) (pull : TunBuilderCapture) : StepOut :=
  let r := winsServerActions tin pull.wins_servers 0
  ⟨r.1, r.2, none⟩

/-- Block: flush the DNS cache on create and again on destroy. -/
def flushStep : StepOut :=
  ⟨[.winCmd "ipconfig /flushdns"], [.winCmd "ipconfig /flushdns"], none⟩

/-- The Vista+ adapter_config: the eleven blocks in source order,
composed so that a throw aborts the remaining blocks (the media-status
and topology ioctls touch only the TAP handle and queue no actions). -/
def adapter_config (env : Env) (appPath : String) (pull : TunBuilderCapture) : StepOut :=
  ((((((((((staleRouteStep env.tap_index).seq
    (ipv4AddressStep env.tap_index_name pull)).seq
    (blockIpv6Step pull)).seq
    (ipv6AddressStep env.tap_index_name pull)).seq
    (addRoutesStep env.tap_index_name pull)).seq
    (excludeRoutesStep env.gw pull)).seq
    (redirectGateway4Step env.gw env.tap_index_name pull)).seq
    (redirectGateway6Step env.tap_index_name pull)).seq
    (dnsStep env appPath pull)).seq
    (winsStep env.tap_index_name pull)).seq
    flushStep

/-- Modelled from the spec: ActionList (the ActionSequence of section
4.2) is not under src/; it owns an ordered action list and an armed
flag, destroy only has effect when armed, and enable_destroy arms it
after the apply phase succeeds. -/
structure ActionList where
  actions : List Action
  armed : Bool
  deriving DecidableEq, Repr

/-- Modelled from the spec: running an ActionList's destroy phase
executes its actions only when armed. -/
def ActionList.destroyRun (l : ActionList) : List Action :=
  if l.armed then l.actions else []

/-- TunWin::Setup state: the retained remove_cmds pointer. -/
structure Setup where
  remove_cmds : Option ActionList
  deriving DecidableEq, Repr

/-- Setup::destroy: when remove_cmds is set, run its destroy phase and
reset the pointer; returns the undo actions that were executed. -/
def Setup.destroy (st : Setup) : List Action × Setup :=
  match st.remove_cmds with
  | none => ([], ⟨none⟩)
  | some l => (l.destroyRun, ⟨none⟩)

/-- Modelled from the spec: ActionList::execute applies actions in
insertion order and stops at the first failure; returns the actions
that were applied successfully and whether all succeeded. -/
def applyAll (exec : Action → Bool) : List Action → List Action × Bool
  | [] => ([], true)
  | a :: rest =>
    if exec a then
      let r := applyAll exec rest
      (a :: r.1, r.2)
    else ([], false)

/-- Typed failures of establish: the TAP acquisition throw, a throw
from adapter_config, or a failing create action. -/
inductive EstError where
  | adapterAcquisition
  | config (e : TunError)
  | actionApplyFailure
  deriving DecidableEq, Repr

/-- Everything observable about one establish call: its result, the
undo actions run by the initial recovery destroy, the create actions
applied this session, and the final Setup state. -/
structure EstablishOutcome where
  result : Option EstError
  priorUndos : List Action
  executed : List Action
  st : Setup
  deriving DecidableEq, Repr

/-- Setup::establish: close out a previous session's remove commands,
open the TAP handle, build both sequences with adapter_config, execute
the create actions, and arm the destroy list only when every create
action succeeded.  On a throw from adapter_config the partially built,
unarmed destroy list is retained; on a failing create action nothing is
rolled back. -/
def Setup.establish (env : Env) (appPath : String) (pull : TunBuilderCapture)
    (st : Setup) : EstablishOutcome :=
  let d := st.destroy
  if !env.tapOk then ⟨some .adapterAcquisition, d.1, [], d.2⟩
  else
    let cfg := adapter_config env appPath pull
    match cfg.err with
    | some e => ⟨some (.config e), d.1, [], ⟨some ⟨cfg.destroy, false⟩⟩⟩
    | none =>
      let r := applyAll env.exec cfg.create
      if r.2 then ⟨none, d.1, r.1, ⟨some ⟨cfg.destroy, true⟩⟩⟩
      else ⟨some .actionApplyFailure, d.1, r.1, ⟨some ⟨cfg.destroy, false⟩⟩⟩

/-- The stale-route cleanup is the one create action without a destroy
counterpart; every other queued action mutates shared host state. -/
def Action.isStaleCleanup : Action → Bool
  | .deleteAllRoutesOnInterface _ => true
  | _ => false

/-- The WFP leak-protection filter actions. -/
def Action.isWfpAction : Action → Bool
  | .wfp _ _ _ => true
  | _ => false

/-- Create actions of a sequence that mutate shared host state: all of
them except the stale-route cleanup. -/
def mutatingCreates (s : StepOut) : List Action :=
  s.create.filter (fun a => !a.isStaleCleanup)

/-- Number of IPv4 DNS servers the DNS block actually adds. -/
def addedDns4 (l : List DNSServer) : Nat := (l.filter (fun d => !d.ipv6)).length

/-- Number of IPv6 DNS servers the DNS block actually adds: none when
IPv6 is blocked. -/
def addedDns6 (blockIpv6 : Bool) (l : List DNSServer) : Nat :=
  if blockIpv6 then 0 else (l.filter (fun d => d.ipv6)).length

/-- DNS servers beyond the first of each family: their add commands
have no destroy counterpart of their own (the single delete-all of the
first server covers them). -/
def secondaryDnsCount (pull : TunBuilderCapture) : Nat :=
  (addedDns4 pull.dns_servers - 1) + (addedDns6 pull.block_ipv6 pull.dns_servers - 1)

/-- WINS servers beyond the first: same single delete-all pattern. -/
def secondaryWinsCount (pull : TunBuilderCapture) : Nat :=
  pull.wins_servers.length - 1

/-- An IPv6 route-add command (the shape shared by the tunnel IPv6
routes and the blackhole routes). -/
def IsIPv6RouteAddCmd (a : Action) : Prop :=
  ∃ rest, a = .winCmd ("netsh interface ipv6 add route " ++ rest)

/-- An IPv6 address-set command. -/
def IsIPv6AddrSetCmd (a : Action) : Prop :=
  ∃ rest, a = .winCmd ("netsh interface ipv6 set address " ++ rest)

/-- An IPv6 DNS-server configuration command (set or add, covering both
the dnsserver and dnsservers spellings). -/
def IsIPv6DnsCmd (a : Action) : Prop :=
  (∃ rest, a = .winCmd ("netsh interface ipv6 set dns" ++ rest)) ∨
  (∃ rest, a = .winCmd ("netsh interface ipv6 add dns" ++ rest))

/-- An action that configures nothing over IPv6: it is neither an IPv6
route add, an IPv6 address set, nor an IPv6 DNS command. -/
def SafeIPv4Cmd (a : Action) : Prop :=
  ¬IsIPv6RouteAddCmd a ∧ ¬IsIPv6AddrSetCmd a ∧ ¬IsIPv6DnsCmd a

/-- A pulled configuration with nothing set, used as the base of the
concrete test configurations. -/
def emptyPull : TunBuilderCapture :=
  ⟨none, none, false, [], [], ⟨false, false⟩, [], [], [], ⟨"1.2.3.4", false⟩⟩

/-- The ifconfig entry of the end-to-end example. -/
def xLocal4 : RouteAddress := ⟨"10.8.0.2", 24, "10.8.0.1", false⟩

/-- Base environment: adapter index 9, no default gateway, Windows 8+,
TAP acquisition succeeds and every action applies successfully. -/
def xEnv : Env := ⟨9, "9", none, true, true, true, true, fun _ => true⟩

/-- Environment with a detectable default gateway. -/
def xEnvGw : Env := { xEnv with gw := some ⟨5, "192.168.1.254"⟩ }

/-- Environment on a pre-Windows-8 host. -/
def xEnvNoW8 : Env := { xEnv with isWindows8OrGreater := false }

/-- Environment where the DNS cache flush action fails to apply. -/
def xEnvFlushFails : Env :=
  { xEnv with exec := fun a => !(a == Action.winCmd "ipconfig /flushdns") }

/-- End-to-end example configuration: ifconfig 10.8.0.2/24 via 10.8.0.1
and one pushed IPv4 route 192.168.50.0/24. -/
def xPullC8 : TunBuilderCapture :=
  { emptyPull with vpn_ipv4 := some xLocal4, add_routes := [⟨"192.168.50.0", 24, false⟩] }

/-- Configuration with two IPv4 DNS servers and nothing else. -/
def xPullTwoDns : TunBuilderCapture :=
  { emptyPull with dns_servers := [⟨"8.8.8.8", false⟩, ⟨"8.8.4.4", false⟩] }

/-- Configuration with IPv4 redirect-gateway whose remote address is
IPv6. -/
def xPullRemote6 : TunBuilderCapture :=
  { emptyPull with vpn_ipv4 := some xLocal4, reroute_gw := ⟨true, false⟩,
                   remote_address := ⟨"2001:db8::1", true⟩ }

/-- Configuration with IPv4 redirect-gateway and an IPv4 remote
address. -/
def xPullReroute4 : TunBuilderCapture :=
  { emptyPull with vpn_ipv4 := some xLocal4, reroute_gw := ⟨true, false⟩ }

/-- Configuration asking for IPv4 redirect-gateway with no ifconfig. -/
def xPullRerouteNo4 : TunBuilderCapture :=
  { emptyPull with reroute_gw := ⟨true, false⟩ }

/-- Configuration with one IPv4 DNS server. -/
def xPullOneDns : TunBuilderCapture :=
  { emptyPull with dns_servers := [⟨"8.8.8.8", false⟩] }

/-- One IPv4 DNS server plus one search domain. -/
def xPullDnsDomain : TunBuilderCapture :=
  { xPullOneDns with search_domains := [⟨"example.com"⟩] }

/-- One IPv4 DNS server, a search domain, and active IPv4 full-tunnel
redirection. -/
def xPullRerouteDns : TunBuilderCapture :=
  { emptyPull with vpn_ipv4 := some xLocal4, reroute_gw := ⟨true, false⟩,
                   dns_servers := [⟨"8.8.8.8", false⟩],
                   search_domains := [⟨"example.com"⟩] }

/-- Configuration pushing an IPv4 route with no IPv4 ifconfig. -/
def xPullMissing : TunBuilderCapture :=
  { emptyPull with add_routes := [⟨"192.168.50.0", 24, false⟩] }

/-- Configuration with block_ipv6 set, together with IPv6 material that
must all be suppressed. -/
def xPullBlock : TunBuilderCapture :=
  { emptyPull with block_ipv6 := true,
                   vpn_ipv6 := some ⟨"fd00::2", 64, "fd00::1", false⟩,
                   add_routes := [⟨"fd00:1::", 64, true⟩],
                   reroute_gw := ⟨false, true⟩,
                   dns_servers := [⟨"2001:4860:4860::8888", true⟩] }

theorem StepOut.seq_of_err_none {s : StepOut} (t : StepOut) (h : s.err = none) :
    s.seq t = ⟨s.create ++ t.create, s.destroy ++ t.destroy, t.err⟩ := by
  simp [StepOut.seq, h]

theorem StepOut.seq_of_err_some {s : StepOut} (t : StepOut) {e : TunError}
    (h : s.err = some e) : s.seq t = s := by
  simp [StepOut.seq, h]

theorem StepOut.err_seq_of_none {s : StepOut} (t : StepOut) (h : s.err = none) :
    (s.seq t).err = t.err := by
  rw [StepOut.seq_of_err_none t h]

theorem StepOut.seq_err_some_elim {s t : StepOut} {e : TunError}
    (h : (s.seq t).err = some e) : s.err = some e ∨ t.err = some e := by
  cases he : s.err with
  | none => right; rwa [StepOut.err_seq_of_none t he] at h
  | some e0 =>
    left
    rw [StepOut.seq_of_err_some t he] at h
    rw [he] at h
    exact h

theorem StepOut.mem_seq_create {s t : StepOut} {a : Action}
    (h : a ∈ (s.seq t).create) : a ∈ s.create ∨ a ∈ t.create := by
  cases he : s.err with
  | none =>
    rw [StepOut.seq_of_err_none t he] at h
    simpa using h
  | some e0 => left; rwa [StepOut.seq_of_err_some t he] at h

theorem StepOut.create_subset_seq_left (s t : StepOut) : s.create ⊆ (s.seq t).create := by
  cases he : s.err with
  | none => rw [StepOut.seq_of_err_none t he]; exact List.subset_append_left _ _
  | some e0 => rw [StepOut.seq_of_err_some t he]; exact List.Subset.refl _

theorem StepOut.destroy_subset_seq_left (s t : StepOut) : s.destroy ⊆ (s.seq t).destroy := by
  cases he : s.err with
  | none => rw [StepOut.seq_of_err_none t he]; exact List.subset_append_left _ _
  | some e0 => rw [StepOut.seq_of_err_some t he]; exact List.Subset.refl _

theorem staleRouteStep_err (i : Nat) : (staleRouteStep i).err = none := rfl

theorem ipv4AddressStep_err (tin : String) (pull : TunBuilderCapture) :
    (ipv4AddressStep tin pull).err = none := by
  cases h : pull.vpn_ipv4 <;> simp [ipv4AddressStep, h]

theorem blockIpv6Step_err (pull : TunBuilderCapture) : (blockIpv6Step pull).err = none := by
  cases h : pull.block_ipv6 <;> simp [blockIpv6Step, h]

theorem ipv6AddressStep_err (tin : String) (pull : TunBuilderCapture) :
    (ipv6AddressStep tin pull).err = none := by
  cases h : pull.vpn_ipv6 <;> cases hb : pull.block_ipv6 <;> simp [ipv6AddressStep, h, hb]

theorem excludeRoutesStep_err (gw : Option Gateway) (pull : TunBuilderCapture) :
    (excludeRoutesStep gw pull).err = none := by
  cases h : pull.exclude_routes.isEmpty <;> cases gw <;> simp [excludeRoutesStep, h]

theorem redirectGateway6Step_err (tin : String) (pull : TunBuilderCapture) :
    (redirectGateway6Step tin pull).err = none := by
  cases h : pull.reroute_gw.ipv6 <;> cases hb : pull.block_ipv6 <;>
    simp [redirectGateway6Step, h, hb]

theorem dnsStep_err (env : Env) (appPath : String) (pull : TunBuilderCapture) :
    (dnsStep env appPath pull).err = none := rfl

theorem winsStep_err (tin : String) (pull : TunBuilderCapture) :
    (winsStep tin pull).err = none := rfl

theorem flushStep_err : flushStep.err = none := rfl

theorem addRouteActions_err_of_some (tin : String) (l4 : RouteAddress) (b : Bool)
    (l : List Route) : (addRouteActions tin (some l4) b l).err = none := by
  induction l with
  | nil => rfl
  | cons r rs ih =>
    cases h6 : r.ipv6 <;> cases hb : b <;>
      simp [addRouteActions, h6, hb, StepOut.seq] <;> simpa [hb] using ih

theorem addRouteActions_err_all6 (tin : String) (o : Option RouteAddress) (b : Bool)
    (l : List Route) (h : ∀ r ∈ l, r.ipv6 = true) :
    (addRouteActions tin o b l).err = none := by
  induction l with
  | nil => rfl
  | cons r rs ih =>
    have h6 : r.ipv6 = true := h r (List.mem_cons_self r rs)
    have ih2 := ih (fun x hx => h x (List.mem_cons_of_mem r hx))
    cases hb : b <;> simp [addRouteActions, h6, hb, StepOut.seq] <;> simpa [hb] using ih2

theorem addRouteActions_err_missing (tin : String) (b : Bool) (l : List Route)
    (r : Route) (hr : r ∈ l) (h6 : r.ipv6 = false) :
    (addRouteActions tin none b l).err = some .missingIfconfig := by
  induction l with
  | nil => cases hr
  | cons x xs ih =>
    cases hx6 : x.ipv6 with
    | false => simp [addRouteActions, hx6]
    | true =>
      have hrx : r ∈ xs := by
        rcases List.mem_cons.mp hr with h | h
        · rw [h] at h6; rw [hx6] at h6; cases h6
        · exact h
      cases hb : b <;> simp [addRouteActions, hx6, hb, StepOut.seq] <;>
        simpa [hb] using ih hrx

theorem addRouteActions_err_cases (tin : String) (o : Option RouteAddress) (b : Bool)
    (l : List Route) :
    (addRouteActions tin o b l).err = none ∨
      (addRouteActions tin o b l).err = some .missingIfconfig := by
  induction l with
  | nil => left; rfl
  | cons r rs ih =>
    cases h6 : r.ipv6 with
    | true =>
      cases hb : b <;> simp [addRouteActions, h6, hb, StepOut.seq] <;> simpa [hb] using ih
    | false =>
      cases ho : o with
      | none => right; simp [addRouteActions, h6]
      | some l4 =>
        rw [ho] at ih
        cases hb : b <;> simp [addRouteActions, h6, hb, StepOut.seq] <;> simpa [hb] using ih

theorem applyAll_stops (exec : Action → Bool) (pre post : List Action) (a : Action)
    (hpre : ∀ b ∈ pre, exec b = true) (ha : exec a = false) :
    applyAll exec (pre ++ a :: post) = (pre, false) := by
  induction pre with
  | nil => simp [applyAll, ha]
  | cons b bs ih =>
    have hb : exec b = true := hpre b (List.mem_cons_self b bs)
    have ih2 := ih (fun x hx => hpre x (List.mem_cons_of_mem b hx))
    simp [applyAll, hb, ih2]

theorem establish_config_err {env : Env} {appPath : String} {pull : TunBuilderCapture}
    (st : Setup) {e : TunError} (htap : env.tapOk = true)
    (he : (adapter_config env appPath pull).err = some e) :
    Setup.establish env appPath pull st =
      ⟨some (.config e), (st.destroy).1, [],
       ⟨some ⟨(adapter_config env appPath pull).destroy, false⟩⟩⟩ := by
  simp [Setup.establish, htap, he]

theorem StepOut.seq_create_of_none {s : StepOut} (t : StepOut) (h : s.err = none) :
    (s.seq t).create = s.create ++ t.create := by
  rw [StepOut.seq_of_err_none t h]

theorem StepOut.seq_destroy_of_none {s : StepOut} (t : StepOut) (h : s.err = none) :
    (s.seq t).destroy = s.destroy ++ t.destroy := by
  rw [StepOut.seq_of_err_none t h]

theorem adapter_config_err_eq (env : Env) (appPath : String) (pull : TunBuilderCapture) :
    (adapter_config env appPath pull).err =
      (match (addRoutesStep env.tap_index_name pull).err with
       | some e => some e
       | none => (redirectGateway4Step env.gw env.tap_index_name pull).err) := by
  have e1 := staleRouteStep_err env.tap_index
  have e2 := ipv4AddressStep_err env.tap_index_name pull
  have e3 := blockIpv6Step_err pull
  have e4 := ipv6AddressStep_err env.tap_index_name pull
  have e6 := excludeRoutesStep_err env.gw pull
  have e8 := redirectGateway6Step_err env.tap_index_name pull
  have e9 := dnsStep_err env appPath pull
  have e10 := winsStep_err env.tap_index_name pull
  have E2 : ((staleRouteStep env.tap_index).seq
      (ipv4AddressStep env.tap_index_name pull)).err = none := by
    rw [StepOut.err_seq_of_none _ e1]; exact e2
  have E3 : (((staleRouteStep env.tap_index).seq
      (ipv4AddressStep env.tap_index_name pull)).seq (blockIpv6Step pull)).err = none := by
    rw [StepOut.err_seq_of_none _ E2]; exact e3
  have E4 : ((((staleRouteStep env.tap_index).seq
      (ipv4AddressStep env.tap_index_name pull)).seq (blockIpv6Step pull)).seq
      (ipv6AddressStep env.tap_index_name pull)).err = none := by
    rw [StepOut.err_seq_of_none _ E3]; exact e4
  cases h5 : (addRoutesStep env.tap_index_name pull).err with
  | some e5 =>
    have P5 : (((((staleRouteStep env.tap_index).seq
        (ipv4AddressStep env.tap_index_name pull)).seq (blockIpv6Step pull)).seq
        (ipv6AddressStep env.tap_index_name pull)).seq
        (addRoutesStep env.tap_index_name pull)).err = some e5 := by
      rw [StepOut.err_seq_of_none _ E4]; exact h5
    unfold adapter_config
    rw [StepOut.seq_of_err_some (excludeRoutesStep env.gw pull) P5,
        StepOut.seq_of_err_some (redirectGateway4Step env.gw env.tap_index_name pull) P5,
        StepOut.seq_of_err_some (redirectGateway6Step env.tap_index_name pull) P5,
        StepOut.seq_of_err_some (dnsStep env appPath pull) P5,
        StepOut.seq_of_err_some (winsStep env.tap_index_name pull) P5,
        StepOut.seq_of_err_some flushStep P5]
    exact P5
  | none =>
    have E5 : (((((staleRouteStep env.tap_index).seq
        (ipv4AddressStep env.tap_index_name pull)).seq (blockIpv6Step pull)).seq
        (ipv6AddressStep env.tap_index_name pull)).seq
        (addRoutesStep env.tap_index_name pull)).err = none := by
      rw [StepOut.err_seq_of_none _ E4]; exact h5
    have E6 : ((((((staleRouteStep env.tap_index).seq
        (ipv4AddressStep env.tap_index_name pull)).seq (blockIpv6Step pull)).seq
        (ipv6AddressStep env.tap_index_name pull)).seq
        (addRoutesStep env.tap_index_name pull)).seq
        (excludeRoutesStep env.gw pull)).err = none := by
      rw [StepOut.err_seq_of_none _ E5]; exact e6
    cases h7 : (redirectGateway4Step env.gw env.tap_index_name pull).err with
    | some e7 =>
      have P7 : (((((((staleRouteStep env.tap_index).seq
          (ipv4AddressStep env.tap_index_name pull)).seq (blockIpv6Step pull)).seq
          (ipv6AddressStep env.tap_index_name pull)).seq
          (addRoutesStep env.tap_index_name pull)).seq
          (excludeRoutesStep env.gw pull)).seq
          (redirectGateway4Step env.gw env.tap_index_name pull)).err = some e7 := by
        rw [StepOut.err_seq_of_none _ E6]; exact h7
      unfold adapter_config
      rw [StepOut.seq_of_err_some (redirectGateway6Step env.tap_index_name pull) P7,
          StepOut.seq_of_err_some (dnsStep env appPath pull) P7,
          StepOut.seq_of_err_some (winsStep env.tap_index_name pull) P7,
          StepOut.seq_of_err_some flushStep P7]
      exact P7
    | none =>
      have E7 : (((((((staleRouteStep env.tap_index).seq
          (ipv4AddressStep env.tap_index_name pull)).seq (blockIpv6Step pull)).seq
          (ipv6AddressStep env.tap_index_name pull)).seq
          (addRoutesStep env.tap_index_name pull)).seq
          (excludeRoutesStep env.gw pull)).seq
          (redirectGateway4Step env.gw env.tap_index_name pull)).err = none := by
        rw [StepOut.err_seq_of_none _ E6]; exact h7
      have E8 : ((((((((staleRouteStep env.tap_index).seq
          (ipv4AddressStep env.tap_index_name pull)).seq (blockIpv6Step pull)).seq
          (ipv6AddressStep env.tap_index_name pull)).seq
          (addRoutesStep env.tap_index_name pull)).seq
          (excludeRoutesStep env.gw pull)).seq
          (redirectGateway4Step env.gw env.tap_index_name pull)).seq
          (redirectGateway6Step env.tap_index_name pull)).err = none := by
        rw [StepOut.err_seq_of_none _ E7]; exact e8
      have E9 : (((((((((staleRouteStep env.tap_index).seq
          (ipv4AddressStep env.tap_index_name pull)).seq (blockIpv6Step pull)).seq
          (ipv6AddressStep env.tap_index_name pull)).seq
          (addRoutesStep env.tap_index_name pull)).seq
          (excludeRoutesStep env.gw pull)).seq
          (redirectGateway4Step env.gw env.tap_index_name pull)).seq
          (redirectGateway6Step env.tap_index_name pull)).seq
          (dnsStep env appPath pull)).err = none := by
        rw [StepOut.err_seq_of_none _ E8]; exact e9
      have E10 : ((((((((((staleRouteStep env.tap_index).seq
          (ipv4AddressStep env.tap_index_name pull)).seq (blockIpv6Step pull)).seq
          (ipv6AddressStep env.tap_index_name pull)).seq
          (addRoutesStep env.tap_index_name pull)).seq
          (excludeRoutesStep env.gw pull)).seq
          (redirectGateway4Step env.gw env.tap_index_name pull)).seq
          (redirectGateway6Step env.tap_index_name pull)).seq
          (dnsStep env appPath pull)).seq
          (winsStep env.tap_index_name pull)).err = none := by
        rw [StepOut.err_seq_of_none _ E9]; exact e10
      unfold adapter_config
      rw [StepOut.err_seq_of_none _ E10]
      rfl

theorem adapter_config_decomp (env : Env) (appPath : String) (pull : TunBuilderCapture)
    (h5 : (addRoutesStep env.tap_index_name pull).err = none)
    (h7 : (redirectGateway4Step env.gw env.tap_index_name pull).err = none) :
    adapter_config env appPath pull =
      ⟨(staleRouteStep env.tap_index).create
         ++ ((ipv4AddressStep env.tap_index_name pull).create
         ++ ((blockIpv6Step pull).create
         ++ ((ipv6AddressStep env.tap_index_name pull).create
         ++ ((addRoutesStep env.tap_index_name pull).create
         ++ ((excludeRoutesStep env.gw pull).create
         ++ ((redirectGateway4Step env.gw env.tap_index_name pull).create
         ++ ((redirectGateway6Step env.tap_index_name pull).create
         ++ ((dnsStep env appPath pull).create
         ++ ((winsStep env.tap_index_name pull).create
         ++ flushStep.create))))))))),
       (staleRouteStep env.tap_index).destroy
         ++ ((ipv4AddressStep env.tap_index_name pull).destroy
         ++ ((blockIpv6Step pull).destroy
         ++ ((ipv6AddressStep env.tap_index_name pull).destroy
         ++ ((addRoutesStep env.tap_index_name pull).destroy
         ++ ((excludeRoutesStep env.gw pull).destroy
         ++ ((redirectGateway4Step env.gw env.tap_index_name pull).destroy
         ++ ((redirectGateway6Step env.tap_index_name pull).destroy
         ++ ((dnsStep env appPath pull).destroy
         ++ ((winsStep env.tap_index_name pull).destroy
         ++ flushStep.destroy))))))))),
       none⟩ := by
  have e1 := staleRouteStep_err env.tap_index
  have e2 := ipv4AddressStep_err env.tap_index_name pull
  have e3 := blockIpv6Step_err pull
  have e4 := ipv6AddressStep_err env.tap_index_name pull
  have e6 := excludeRoutesStep_err env.gw pull
  have e8 := redirectGateway6Step_err env.tap_index_name pull
  have e9 := dnsStep_err env appPath pull
  have e10 := winsStep_err env.tap_index_name pull
  have E2 : ((staleRouteStep env.tap_index).seq
      (ipv4AddressStep env.tap_index_name pull)).err = none := by
    rw [StepOut.err_seq_of_none _ e1]; exact e2
  have E3 : (((staleRouteStep env.tap_index).seq
      (ipv4AddressStep env.tap_index_name pull)).seq (blockIpv6Step pull)).err = none := by
    rw [StepOut.err_seq_of_none _ E2]; exact e3
  have E4 : ((((staleRouteStep env.tap_index).seq
      (ipv4AddressStep env.tap_index_name pull)).seq (blockIpv6Step pull)).seq
      (ipv6AddressStep env.tap_index_name pull)).err = none := by
    rw [StepOut.err_seq_of_none _ E3]; exact e4
  have E5 : (((((staleRouteStep env.tap_index).seq
      (ipv4AddressStep env.tap_index_name pull)).seq (blockIpv6Step pull)).seq
      (ipv6AddressStep env.tap_index_name pull)).seq
      (addRoutesStep env.tap_index_name pull)).err = none := by
    rw [StepOut.err_seq_of_none _ E4]; exact h5
  have E6 : ((((((staleRouteStep env.tap_index).seq
      (ipv4AddressStep env.tap_index_name pull)).seq (blockIpv6Step pull)).seq
      (ipv6AddressStep env.tap_index_name pull)).seq
      (addRoutesStep env.tap_index_name pull)).seq
      (excludeRoutesStep env.gw pull)).err = none := by
    rw [StepOut.err_seq_of_none _ E5]; exact e6
  have E7 : (((((((staleRouteStep env.tap_index).seq
      (ipv4AddressStep env.tap_index_name pull)).seq (blockIpv6Step pull)).seq
      (ipv6AddressStep env.tap_index_name pull)).seq
      (addRoutesStep env.tap_index_name pull)).seq
      (excludeRoutesStep env.gw pull)).seq
      (redirectGateway4Step env.gw env.tap_index_name pull)).err = none := by
    rw [StepOut.err_seq_of_none _ E6]; exact h7
  have E8 : ((((((((staleRouteStep env.tap_index).seq
      (ipv4AddressStep env.tap_index_name pull)).seq (blockIpv6Step pull)).seq
      (ipv6AddressStep env.tap_index_name pull)).seq
      (addRoutesStep env.tap_index_name pull)).seq
      (excludeRoutesStep env.gw pull)).seq
      (redirectGateway4Step env.gw env.tap_index_name pull)).seq
      (redirectGateway6Step env.tap_index_name pull)).err = none := by
    rw [StepOut.err_seq_of_none _ E7]; exact e8
  have E9 : (((((((((staleRouteStep env.tap_index).seq
      (ipv4AddressStep env.tap_index_name pull)).seq (blockIpv6Step pull)).seq
      (ipv6AddressStep env.tap_index_name pull)).seq
      (addRoutesStep env.tap_index_name pull)).seq
      (excludeRoutesStep env.gw pull)).seq
      (redirectGateway4Step env.gw env.tap_index_name pull)).seq
      (redirectGateway6Step env.tap_index_name pull)).seq
      (dnsStep env appPath pull)).err = none := by
    rw [StepOut.err_seq_of_none _ E8]; exact e9
  have E10 : ((((((((((staleRouteStep env.tap_index).seq
      (ipv4AddressStep env.tap_index_name pull)).seq (blockIpv6Step pull)).seq
      (ipv6AddressStep env.tap_index_name pull)).seq
      (addRoutesStep env.tap_index_name pull)).seq
      (excludeRoutesStep env.gw pull)).seq
      (redirectGateway4Step env.gw env.tap_index_name pull)).seq
      (redirectGateway6Step env.tap_index_name pull)).seq
      (dnsStep env appPath pull)).seq
      (winsStep env.tap_index_name pull)).err = none := by
    rw [StepOut.err_seq_of_none _ E9]; exact e10
  unfold adapter_config
  rw [StepOut.seq_of_err_none flushStep E10,
      StepOut.seq_create_of_none _ E9, StepOut.seq_destroy_of_none _ E9,
      StepOut.seq_create_of_none _ E8, StepOut.seq_destroy_of_none _ E8,
      StepOut.seq_create_of_none _ E7, StepOut.seq_destroy_of_none _ E7,
      StepOut.seq_create_of_none _ E6, StepOut.seq_destroy_of_none _ E6,
      StepOut.seq_create_of_none _ E5, StepOut.seq_destroy_of_none _ E5,
      StepOut.seq_create_of_none _ E4, StepOut.seq_destroy_of_none _ E4,
      StepOut.seq_create_of_none _ E3, StepOut.seq_destroy_of_none _ E3,
      StepOut.seq_create_of_none _ E2, StepOut.seq_destroy_of_none _ E2,
      StepOut.seq_create_of_none _ e1, StepOut.seq_destroy_of_none _ e1]
  simp [List.append_assoc]
  exact flushStep_err

theorem string_append_ne (P Q x y : String) (k : Nat)
    (h1 : k ≤ P.data.length) (h2 : k ≤ Q.data.length)
    (hne : P.data.take k ≠ Q.data.take k) : P ++ x ≠ Q ++ y := by
  intro e
  apply hne
  have hd : (P ++ x).data = (Q ++ y).data := by rw [e]
  rw [String.data_append, String.data_append] at hd
  have ht := congrArg (List.take k) hd
  rwa [List.take_append_of_le_length h1, List.take_append_of_le_length h2] at ht

theorem string_ne_append (P Q y : String) (k : Nat)
    (h1 : k ≤ Q.data.length) (hne : P.data.take k ≠ Q.data.take k) : P ≠ Q ++ y := by
  intro e
  apply hne
  have hd : P.data = (Q ++ y).data := by rw [e]
  rw [String.data_append] at hd
  have ht := congrArg (List.take k) hd
  rwa [List.take_append_of_le_length h1] at ht

theorem addRoutesStep_eq (tin : String) (pull : TunBuilderCapture) :
    addRoutesStep tin pull
      = addRouteActions tin pull.vpn_ipv4 pull.block_ipv6 pull.add_routes := rfl

theorem redirectGateway4Step_off (gw : Option Gateway) (tin : String)
    (pull : TunBuilderCapture) (h : pull.reroute_gw.ipv4 = false) :
    redirectGateway4Step gw tin pull = ⟨[], [], none⟩ := by
  simp [redirectGateway4Step, h]

theorem redirectGateway4Step_noGw (tin : String) (pull : TunBuilderCapture)
    (h : pull.reroute_gw.ipv4 = true) :
    redirectGateway4Step none tin pull = ⟨[], [], some .gatewayDetection⟩ := by
  simp [redirectGateway4Step, h]

theorem redirectGateway4Step_nullDeref (g : Gateway) (tin : String)
    (pull : TunBuilderCapture) (hrr : pull.reroute_gw.ipv4 = true)
    (h4 : pull.vpn_ipv4 = none) :
    (redirectGateway4Step (some g) tin pull).err = some .nullDeref := by
  simp [redirectGateway4Step, hrr, h4]

theorem redirectGateway4Step_err_of_some (g : Gateway) (tin : String)
    (pull : TunBuilderCapture) (l4 : RouteAddress) (h4 : pull.vpn_ipv4 = some l4) :
    (redirectGateway4Step (some g) tin pull).err = none := by
  cases hrr : pull.reroute_gw.ipv4 <;> simp [redirectGateway4Step, hrr, h4]

/-- C5: Setup::destroy is idempotent: with no remove_cmds retained it
executes nothing, with an unarmed list it executes nothing, and after
any call the state is cleared so an immediately following second call
executes no actions. -/
theorem c5_destroy_idempotent (st : Setup) :
    (st.remove_cmds = none → st.destroy = ([], ⟨none⟩)) ∧
    ((st.destroy).2.destroy = ([], ⟨none⟩)) ∧
    (∀ l : ActionList, st.remove_cmds = some l → l.armed = false →
      st.destroy = ([], ⟨none⟩)) := by
  refine ⟨fun h => ?_, ?_, fun l hl ha => ?_⟩
  · simp [Setup.destroy, h]
  · cases h : st.remove_cmds <;> simp [Setup.destroy, h]
  · simp [Setup.destroy, hl, ActionList.destroyRun, ha]

/-- Witness for C5 at a concrete armed state. -/
theorem c5_destroy_idempotent_witness :
    ((Setup.mk (some ⟨[Action.winCmd "ipconfig /flushdns"], true⟩)).destroy).2.destroy
      = ([], ⟨none⟩) :=
  (c5_destroy_idempotent (Setup.mk (some ⟨[Action.winCmd "ipconfig /flushdns"], true⟩))).2.1

/-- C8: the end-to-end example: ifconfig 10.8.0.2/24 via 10.8.0.1 plus
one pushed IPv4 route 192.168.50.0/24 produces exactly the create
sequence stale-cleanup, set-address, add-route, cache-flush and the
mirrored destroy sequence delete-address, delete-route, flush. -/
theorem c8_end_to_end :
    adapter_config xEnv "" xPullC8 =
      ⟨[.deleteAllRoutesOnInterface 9,
        .winCmd "netsh interface ip set address 9 static 10.8.0.2 255.255.255.0 gateway=10.8.0.1 store=active",
        .winCmd "netsh interface ip add route 192.168.50.0/24 9 10.8.0.1 store=active",
        .winCmd "ipconfig /flushdns"],
       [.winCmd "netsh interface ip delete address 9 10.8.0.2 gateway=all store=active",
        .winCmd "netsh interface ip delete route 192.168.50.0/24 9 10.8.0.1 store=active",
        .winCmd "ipconfig /flushdns"],
       none⟩ := by
  decide

/-- C2: a pulled configuration with an IPv4 addRoutes entry and no
ipv4Route makes establish fail with the missing-ifconfig error raised
while the sequences are being built, before any create action has
executed. -/
theorem c2_missing_ifconfig (env : Env) (appPath : String) (pull : TunBuilderCapture)
    (st : Setup) (r : Route) (htap : env.tapOk = true)
    (h4 : pull.vpn_ipv4 = none) (hr : r ∈ pull.add_routes) (h6 : r.ipv6 = false) :
    (Setup.establish env appPath pull st).result = some (.config .missingIfconfig) ∧
    (Setup.establish env appPath pull st).executed = [] := by
  have h5 : (addRoutesStep env.tap_index_name pull).err = some .missingIfconfig := by
    rw [addRoutesStep_eq, h4]
    exact addRouteActions_err_missing env.tap_index_name pull.block_ipv6
      pull.add_routes r hr h6
  have hcfg : (adapter_config env appPath pull).err = some .missingIfconfig := by
    rw [adapter_config_err_eq env appPath pull, h5]
  rw [establish_config_err st htap hcfg]
  exact ⟨rfl, rfl⟩

/-- Witness for C2 at a concrete configuration pushing 192.168.50.0/24
with no IPv4 ifconfig. -/
theorem c2_missing_ifconfig_witness :
    (Setup.establish xEnv "" xPullMissing ⟨none⟩).result
        = some (.config .missingIfconfig) ∧
    (Setup.establish xEnv "" xPullMissing ⟨none⟩).executed = [] :=
  c2_missing_ifconfig xEnv "" xPullMissing ⟨none⟩ ⟨"192.168.50.0", 24, false⟩
    rfl rfl (by decide) rfl

/-- C6: when a create action fails partway through establish, the
failure propagates, exactly the successfully applied prefix remains
executed (no automatic rollback, later create actions never run), and
the destroy sequence is retained unarmed rather than executed. -/
theorem c6_no_rollback (env : Env) (appPath : String) (pull : TunBuilderCapture)
    (st : Setup) (pre post : List Action) (a : Action) (htap : env.tapOk = true)
    (hcfg : (adapter_config env appPath pull).err = none)
    (hsplit : (adapter_config env appPath pull).create = pre ++ a :: post)
    (hpre : ∀ b ∈ pre, env.exec b = true) (ha : env.exec a = false) :
    Setup.establish env appPath pull st =
      ⟨some .actionApplyFailure, (st.destroy).1, pre,
       ⟨some ⟨(adapter_config env appPath pull).destroy, false⟩⟩⟩ := by
  have happ : applyAll env.exec (adapter_config env appPath pull).create = (pre, false) := by
    rw [hsplit]
    exact applyAll_stops env.exec pre post a hpre ha
  simp [Setup.establish, htap, hcfg, happ]

/-- Witness for C6: the stale-route cleanup applies, then the cache
flush fails; establish reports the failure, only the cleanup ran, and
the destroy list is retained unarmed. -/
theorem c6_no_rollback_witness :
    Setup.establish xEnvFlushFails "" emptyPull ⟨none⟩ =
      ⟨some .actionApplyFailure, [], [Action.deleteAllRoutesOnInterface 9],
       ⟨some ⟨[Action.winCmd "ipconfig /flushdns"], false⟩⟩⟩ := by
  rw [c6_no_rollback xEnvFlushFails "" emptyPull ⟨none⟩
    [Action.deleteAllRoutesOnInterface 9] [] (Action.winCmd "ipconfig /flushdns")
    rfl (by decide) (by decide) (by decide) (by decide)]
  decide

/-- C10 counterexample: a configuration with redirect-gateway set and
no ipv4Route does not always reach the null dereference: with no
detectable default gateway the construction throws gatewayDetection
first. -/
theorem c10_counterexample :
    (adapter_config xEnv "" xPullRerouteNo4).err = some .gatewayDetection ∧
    ¬ (adapter_config xEnv "" xPullRerouteNo4).err = some .nullDeref := by
  decide

/-- C10 amended: under the precondition that redirect-gateway implies a
configured ipv4Route, the construction never reaches the null
dereference of the absent route configuration; conversely, with
redirect-gateway set, no ipv4Route, a detectable gateway, and no IPv4
pushed route to throw missing-ifconfig first, the construction does
dereference the absent configuration. -/
theorem c10_amended (env : Env) (appPath : String) (pull : TunBuilderCapture) :
    ((pull.reroute_gw.ipv4 = true → pull.vpn_ipv4.isSome = true) →
      ¬ (adapter_config env appPath pull).err = some .nullDeref) ∧
    (∀ g : Gateway, pull.reroute_gw.ipv4 = true → pull.vpn_ipv4 = none →
      env.gw = some g → (∀ r ∈ pull.add_routes, r.ipv6 = true) →
      (adapter_config env appPath pull).err = some .nullDeref) := by
  constructor
  · intro hpre
    rw [adapter_config_err_eq env appPath pull]
    rcases addRouteActions_err_cases env.tap_index_name pull.vpn_ipv4
        pull.block_ipv6 pull.add_routes with h5 | h5 <;>
      rw [addRoutesStep_eq] <;> rw [h5]
    · intro hbad
      cases hrr : pull.reroute_gw.ipv4 with
      | false => rw [redirectGateway4Step_off env.gw _ pull hrr] at hbad; cases hbad
      | true =>
        have h4 := hpre hrr
        rcases Option.isSome_iff_exists.mp h4 with ⟨l4, hl4⟩
        cases hgw : env.gw with
        | none =>
          rw [hgw, redirectGateway4Step_noGw _ pull hrr] at hbad
          cases hbad
        | some g =>
          rw [hgw, redirectGateway4Step_err_of_some g _ pull l4 hl4] at hbad
          cases hbad
    · intro hbad
      cases hbad
  · intro g hrr h4 hgw h6all
    have h5 : (addRoutesStep env.tap_index_name pull).err = none := by
      rw [addRoutesStep_eq]
      exact addRouteActions_err_all6 env.tap_index_name pull.vpn_ipv4
        pull.block_ipv6 pull.add_routes h6all
    rw [adapter_config_err_eq env appPath pull, h5, hgw]
    exact redirectGateway4Step_nullDeref g env.tap_index_name pull hrr h4

/-- Witness for C10: the precondition protects the empty configuration,
and the dereference is reached at a concrete gateway-present
configuration with redirect-gateway and no ipv4Route. -/
theorem c10_amended_witness :
    ¬ (adapter_config xEnv "" emptyPull).err = some .nullDeref ∧
    (adapter_config xEnvGw "" xPullRerouteNo4).err = some .nullDeref :=
  ⟨(c10_amended xEnv "" emptyPull).1 (by decide),
   (c10_amended xEnvGw "" xPullRerouteNo4).2 ⟨5, "192.168.1.254"⟩ rfl rfl rfl
     (by decide)⟩

/-- C3 counterexample: with redirect-gateway set, a gateway present and
an IPv6 remote address, only the two split-default routes are queued
and no server-bypass host route at all, contradicting the claimed
"plus one host route bypassing the VPN server". -/
theorem c3_counterexample :
    (adapter_config xEnvGw "" xPullRemote6).create =
      [.deleteAllRoutesOnInterface 9,
       .winCmd "netsh interface ip set address 9 static 10.8.0.2 255.255.255.0 gateway=10.8.0.1 store=active",
       .winCmd "netsh interface ip add route 0.0.0.0/1 9 10.8.0.1 store=active",
       .winCmd "netsh interface ip add route 128.0.0.0/1 9 10.8.0.1 store=active",
       .winCmd "ipconfig /flushdns"] ∧
    ¬ Action.winCmd "netsh interface ip add route 2001:db8::1/32 5 192.168.1.254 store=active"
        ∈ (adapter_config xEnvGw "" xPullRemote6).create := by
  decide

/-- C3 amended: provided the pushed-routes step itself raises no error,
redirect-gateway with no detectable default gateway makes establish
fail with gatewayDetection before any action executes; and with a
gateway present, an IPv4 remote address and a configured ipv4Route, the
redirect-gateway rule queues exactly the bypass host route plus the two
split-default routes (each with its matching delete), all of which
appear in the built create sequence. -/
theorem c3_amended (env : Env) (appPath : String) (pull : TunBuilderCapture) (st : Setup) :
    (pull.reroute_gw.ipv4 = true → env.gw = none → env.tapOk = true →
      (addRoutesStep env.tap_index_name pull).err = none →
      (Setup.establish env appPath pull st).result = some (.config .gatewayDetection) ∧
      (Setup.establish env appPath pull st).executed = []) ∧
    (∀ (g : Gateway) (l4 : RouteAddress), pull.reroute_gw.ipv4 = true →
      env.gw = some g → pull.vpn_ipv4 = some l4 → pull.remote_address.ipv6 = false →
      redirectGateway4Step env.gw env.tap_index_name pull =
        ⟨[.winCmd ("netsh interface ip add route " ++ pull.remote_address.address
            ++ "/32 " ++ toString g.interface_index ++ " " ++ g.gateway_address
            ++ " store=active"),
          .winCmd ("netsh interface ip add route 0.0.0.0/1 " ++ env.tap_index_name
            ++ " " ++ l4.gateway ++ " store=active"),
          .winCmd ("netsh interface ip add route 128.0.0.0/1 " ++ env.tap_index_name
            ++ " " ++ l4.gateway ++ " store=active")],
         [.winCmd ("netsh interface ip delete route " ++ pull.remote_address.address
            ++ "/32 " ++ toString g.interface_index ++ " " ++ g.gateway_address
            ++ " store=active"),
          .winCmd ("netsh interface ip delete route 0.0.0.0/1 " ++ env.tap_index_name
            ++ " " ++ l4.gateway ++ " store=active"),
          .winCmd ("netsh interface ip delete route 128.0.0.0/1 " ++ env.tap_index_name
            ++ " " ++ l4.gateway ++ " store=active")],
         none⟩) ∧
    ((addRoutesStep env.tap_index_name pull).err = none →
      (redirectGateway4Step env.gw env.tap_index_name pull).err = none →
      ∀ a ∈ (redirectGateway4Step env.gw env.tap_index_name pull).create,
        a ∈ (adapter_config env appPath pull).create) := by
  refine ⟨fun hrr hgw htap h5 => ?_, fun g l4 hrr hgw h4 h6 => ?_, fun h5 h7 a ha => ?_⟩
  · have h7 : (redirectGateway4Step env.gw env.tap_index_name pull).err
        = some .gatewayDetection := by
      rw [hgw, redirectGateway4Step_noGw env.tap_index_name pull hrr]
    have hcfg : (adapter_config env appPath pull).err = some .gatewayDetection := by
      rw [adapter_config_err_eq env appPath pull, h5, h7]
    rw [establish_config_err st htap hcfg]
    exact ⟨rfl, rfl⟩
  · rw [hgw]
    simp [redirectGateway4Step, hrr, h4, h6]
  · rw [adapter_config_decomp env appPath pull h5 h7]
    simp only [List.mem_append]
    exact Or.inr (Or.inr (Or.inr (Or.inr (Or.inr (Or.inr (Or.inl ha))))))

/-- Witness for C3: the gateway-missing half at a redirect configuration
with no gateway, and the exact three-route inventory of the rule at a
gateway-present configuration. -/
theorem c3_amended_witness :
    (Setup.establish xEnv "" xPullReroute4 ⟨none⟩).result
        = some (.config .gatewayDetection) ∧
    redirectGateway4Step xEnvGw.gw xEnvGw.tap_index_name xPullReroute4 =
      ⟨[.winCmd "netsh interface ip add route 1.2.3.4/32 5 192.168.1.254 store=active",
        .winCmd "netsh interface ip add route 0.0.0.0/1 9 10.8.0.1 store=active",
        .winCmd "netsh interface ip add route 128.0.0.0/1 9 10.8.0.1 store=active"],
       [.winCmd "netsh interface ip delete route 1.2.3.4/32 5 192.168.1.254 store=active",
        .winCmd "netsh interface ip delete route 0.0.0.0/1 9 10.8.0.1 store=active",
        .winCmd "netsh interface ip delete route 128.0.0.0/1 9 10.8.0.1 store=active"],
       none⟩ := by
  constructor
  · exact ((c3_amended xEnv "" xPullReroute4 ⟨none⟩).1 rfl rfl rfl (by decide)).1
  · rw [(c3_amended xEnvGw "" xPullReroute4 ⟨none⟩).2.1 ⟨5, "192.168.1.254"⟩
      xLocal4 rfl rfl rfl rfl]
    decide

theorem dot_append_head (s : String) : (("." : String) ++ s).data.head? = some '.' := by
  rw [String.data_append]
  rfl

theorem normalizeDomain_head (sd : SearchDomain) (d : String)
    (h : normalizeDomain sd = some d) : d.data.head? = some '.' := by
  unfold normalizeDomain at h
  by_cases h1 : sd.domain.isEmpty
  · rw [if_pos h1] at h; cases h
  · rw [if_neg h1] at h
    by_cases h2 : sd.domain.data.head? = some '.'
    · rw [if_pos h2] at h
      have hd : sd.domain = d := Option.some.inj h
      rw [← hd]; exact h2
    · rw [if_neg h2] at h
      have hd : ("." : String) ++ sd.domain = d := Option.some.inj h
      rw [← hd]; exact dot_append_head _

theorem filterMap_normalizeDomain (sd : List SearchDomain)
    (h : ∀ s ∈ sd, s.domain.isEmpty = false ∧ s.domain.data.head? ≠ some '.') :
    sd.filterMap normalizeDomain = sd.map (fun s => "." ++ s.domain) := by
  induction sd with
  | nil => rfl
  | cons x xs ih =>
    have hx := h x (List.mem_cons_self x xs)
    have ihh := ih (fun s hs => h s (List.mem_cons_of_mem _ hs))
    simp [List.filterMap_cons, normalizeDomain, hx.1, hx.2, ihh]

/-- C7: the NRPT policy-table suffix list is the wildcard whenever a
family redirects DNS; with redirection inactive it is the collected
non-empty search domains, each normalized to a leading dot, with the
wildcard as fallback for an empty collection; concrete instances show
the empty, example.com and redirection cases end to end through
adapter_config. -/
theorem c7_suffix_list (sd : List SearchDomain) (r4 r6 : Bool) :
    ((r4 || r6) = true → domainSuffixList sd r4 r6 = ["."]) ∧
    (sd = [] → domainSuffixList sd false false = ["."]) ∧
    (∀ d ∈ domainSuffixList sd r4 r6, d.data.head? = some '.') ∧
    (sd ≠ [] → (∀ s ∈ sd, s.domain.isEmpty = false ∧ s.domain.data.head? ≠ some '.') →
      domainSuffixList sd false false = sd.map (fun s => "." ++ s.domain)) ∧
    domainSuffixList [⟨"example.com"⟩] false false = [".example.com"] ∧
    Action.nrptCreate ["."] ["8.8.8.8"] ∈ (adapter_config xEnv "" xPullOneDns).create ∧
    Action.nrptCreate [".example.com"] ["8.8.8.8"]
        ∈ (adapter_config xEnv "" xPullDnsDomain).create ∧
    Action.nrptCreate ["."] ["8.8.8.8"]
        ∈ (adapter_config xEnvGw "" xPullRerouteDns).create := by
  refine ⟨fun hr => ?_, fun hsd => ?_, fun d hd => ?_, fun hne hdom => ?_,
    by decide, by decide, by decide, by decide⟩
  · cases r4 <;> cases r6 <;> simp [domainSuffixList] <;> cases hr
  · rw [hsd]; rfl
  · unfold domainSuffixList at hd
    by_cases hb : (!r4 && !r6) = true
    · rw [if_pos hb] at hd
      by_cases he : (sd.filterMap normalizeDomain).isEmpty
      · rw [if_pos he] at hd
        have : d = "." := List.mem_singleton.mp hd
        rw [this]; rfl
      · rw [if_neg he] at hd
        rcases List.mem_filterMap.mp hd with ⟨s, _, hs⟩
        exact normalizeDomain_head s d hs
    · rw [if_neg hb] at hd
      simp only [List.isEmpty_nil, if_pos] at hd
      have : d = "." := List.mem_singleton.mp hd
      rw [this]; rfl
  · cases sd with
    | nil => cases hne rfl
    | cons x xs =>
      have hfm := filterMap_normalizeDomain (x :: xs) hdom
      show (if ((x :: xs).filterMap normalizeDomain).isEmpty then ["."]
            else (x :: xs).filterMap normalizeDomain) = _
      rw [hfm]
      rfl

/-- Witness for C7 at concrete suffix inputs. -/
theorem c7_suffix_list_witness :
    domainSuffixList [⟨"corp.example"⟩] true false = ["."] ∧
    domainSuffixList [] false false = ["."] ∧
    domainSuffixList [⟨"corp.example"⟩] false false = [".corp.example"] := by
  refine ⟨(c7_suffix_list [⟨"corp.example"⟩] true false).1 rfl,
          (c7_suffix_list [] false false).2.1 rfl, ?_⟩
  rw [(c7_suffix_list [⟨"corp.example"⟩] false false).2.2.2.1 (by decide) (by decide)]
  decide

theorem staleRouteStep_counts (i : Nat) :
    ((staleRouteStep i).create.filter (fun a => !a.isStaleCleanup)).length
      = (staleRouteStep i).destroy.length := by
  simp [staleRouteStep, Action.isStaleCleanup]

theorem ipv4AddressStep_counts (tin : String) (pull : TunBuilderCapture) :
    ((ipv4AddressStep tin pull).create.filter (fun a => !a.isStaleCleanup)).length
      = (ipv4AddressStep tin pull).destroy.length := by
  cases h : pull.vpn_ipv4 <;> simp [ipv4AddressStep, h, Action.isStaleCleanup]

theorem blockIpv6Step_counts (pull : TunBuilderCapture) :
    ((blockIpv6Step pull).create.filter (fun a => !a.isStaleCleanup)).length
      = (blockIpv6Step pull).destroy.length := by
  cases h : pull.block_ipv6 <;>
    simp [blockIpv6Step, h, blackholeAddCmds, blackholeDeleteCmds, block_ipv6_net,
      Action.isStaleCleanup]

theorem ipv6AddressStep_counts (tin : String) (pull : TunBuilderCapture) :
    ((ipv6AddressStep tin pull).create.filter (fun a => !a.isStaleCleanup)).length
      = (ipv6AddressStep tin pull).destroy.length := by
  cases h : pull.vpn_ipv6 <;> cases hb : pull.block_ipv6 <;>
    simp [ipv6AddressStep, h, hb, Action.isStaleCleanup]

theorem addRouteActions_counts (tin : String) (o : Option RouteAddress) (b : Bool)
    (l : List Route) :
    ((addRouteActions tin o b l).create.filter (fun a => !a.isStaleCleanup)).length
      = (addRouteActions tin o b l).destroy.length := by
  induction l with
  | nil => rfl
  | cons r rs ih =>
    cases h6 : r.ipv6 with
    | true =>
      cases hb : b <;>
        simp [addRouteActions, h6, hb, StepOut.seq, List.filter_append,
          Action.isStaleCleanup] <;>
        simpa [hb] using ih
    | false =>
      cases o with
      | none => simp [addRouteActions, h6]
      | some l4 =>
        simp [addRouteActions, h6, StepOut.seq, List.filter_append,
          Action.isStaleCleanup]
        simpa using ih

theorem excludeRouteActions_counts (gwIf : Nat) (gwAddr : String) (l : List Route) :
    ((excludeRouteActions gwIf gwAddr l).1.filter (fun a => !a.isStaleCleanup)).length
      = (excludeRouteActions gwIf gwAddr l).2.length := by
  induction l with
  | nil => rfl
  | cons r rs ih =>
    cases h6 : r.ipv6 <;>
      simp [excludeRouteActions, h6, Action.isStaleCleanup] <;> simpa using ih

theorem excludeRoutesStep_counts (gw : Option Gateway) (pull : TunBuilderCapture) :
    ((excludeRoutesStep gw pull).create.filter (fun a => !a.isStaleCleanup)).length
      = (excludeRoutesStep gw pull).destroy.length := by
  cases h : pull.exclude_routes.isEmpty <;> cases gw <;>
    simp [excludeRoutesStep, h, excludeRouteActions_counts]

theorem redirectGateway4Step_counts (gw : Option Gateway) (tin : String)
    (pull : TunBuilderCapture) :
    ((redirectGateway4Step gw tin pull).create.filter (fun a => !a.isStaleCleanup)).length
      = (redirectGateway4Step gw tin pull).destroy.length := by
  cases hrr : pull.reroute_gw.ipv4 <;> cases gw <;>
    cases h6 : pull.remote_address.ipv6 <;> cases h4 : pull.vpn_ipv4 <;>
    simp [redirectGateway4Step, hrr, h6, h4, List.filter_append, Action.isStaleCleanup]

theorem redirectGateway6Step_counts (tin : String) (pull : TunBuilderCapture) :
    ((redirectGateway6Step tin pull).create.filter (fun a => !a.isStaleCleanup)).length
      = (redirectGateway6Step tin pull).destroy.length := by
  cases h : pull.reroute_gw.ipv6 <;> cases hb : pull.block_ipv6 <;>
    simp [redirectGateway6Step, h, hb, Action.isStaleCleanup]

theorem addedDns4_cons (ds : DNSServer) (rest : List DNSServer) :
    addedDns4 (ds :: rest) = (if ds.ipv6 then 0 else 1) + addedDns4 rest := by
  cases h : ds.ipv6 <;> simp [addedDns4, List.filter_cons, h] <;> omega

theorem addedDns6_cons (b : Bool) (ds : DNSServer) (rest : List DNSServer) :
    addedDns6 b (ds :: rest) = (if ds.ipv6 && !b then 1 else 0) + addedDns6 b rest := by
  cases h : ds.ipv6 <;> cases b <;> simp [addedDns6, List.filter_cons, h] <;> omega

theorem dnsServerActions_shape (tin dnsCmd validateCmd : String) (b : Bool)
    (l : List DNSServer) : ∀ i4 i6 : Nat,
    (∀ a ∈ (dnsServerActions tin dnsCmd validateCmd b l i4 i6).1, ∃ c, a = .winCmd c) ∧
    (∀ a ∈ (dnsServerActions tin dnsCmd validateCmd b l i4 i6).2.1, ∃ c, a = .winCmd c) := by
  induction l with
  | nil =>
    intro i4 i6
    exact ⟨fun a ha => absurd ha (List.not_mem_nil a),
      fun a ha => absurd ha (List.not_mem_nil a)⟩
  | cons ds rest ih =>
    intro i4 i6
    cases h6 : ds.ipv6 with
    | true =>
      cases hb : b with
      | true => simpa [dnsServerActions, h6, hb] using ih i4 i6
      | false =>
        subst hb
        by_cases hi : i6 = 0
        · subst hi
          constructor
          · intro a ha
            simp [dnsServerActions, h6] at ha
            rcases ha with ha | ha
            · exact ⟨_, ha⟩
            · exact (ih i4 1).1 a ha
          · intro a ha
            simp [dnsServerActions, h6] at ha
            rcases ha with ha | ha
            · exact ⟨_, ha⟩
            · exact (ih i4 1).2 a ha
        · constructor
          · intro a ha
            simp [dnsServerActions, h6, hi] at ha
            rcases ha with ha | ha
            · exact ⟨_, ha⟩
            · exact (ih i4 (i6 + 1)).1 a ha
          · intro a ha
            simp [dnsServerActions, h6, hi] at ha
            exact (ih i4 (i6 + 1)).2 a ha
    | false =>
      by_cases hi : i4 = 0
      · subst hi
        constructor
        · intro a ha
          simp [dnsServerActions, h6] at ha
          rcases ha with ha | ha
          · exact ⟨_, ha⟩
          · exact (ih 1 i6).1 a ha
        · intro a ha
          simp [dnsServerActions, h6] at ha
          rcases ha with ha | ha
          · exact ⟨_, ha⟩
          · exact (ih 1 i6).2 a ha
      · constructor
        · intro a ha
          simp [dnsServerActions, h6, hi] at ha
          rcases ha with ha | ha
          · exact ⟨_, ha⟩
          · exact (ih (i4 + 1) i6).1 a ha
        · intro a ha
          simp [dnsServerActions, h6, hi] at ha
          exact (ih (i4 + 1) i6).2 a ha

theorem dnsServerActions_counts (tin dnsCmd validateCmd : String) (b : Bool)
    (l : List DNSServer) : ∀ i4 i6 : Nat,
    (dnsServerActions tin dnsCmd validateCmd b l i4 i6).1.length
        = addedDns4 l + addedDns6 b l ∧
    (dnsServerActions tin dnsCmd validateCmd b l i4 i6).2.1.length
        = (if i4 = 0 ∧ addedDns4 l ≠ 0 then 1 else 0)
          + (if i6 = 0 ∧ addedDns6 b l ≠ 0 then 1 else 0) ∧
    (dnsServerActions tin dnsCmd validateCmd b l i4 i6).2.2.1 = i4 + addedDns4 l ∧
    (dnsServerActions tin dnsCmd validateCmd b l i4 i6).2.2.2 = i6 + addedDns6 b l := by
  induction l with
  | nil =>
    intro i4 i6
    cases b <;> simp [dnsServerActions, addedDns4, addedDns6]
  | cons ds rest ih =>
    intro i4 i6
    cases h6 : ds.ipv6 with
    | true =>
      cases hb : b with
      | true =>
        subst hb
        obtain ⟨ih1, ih2, ih3, ih4⟩ := ih i4 i6
        refine ⟨?_, ?_, ?_, ?_⟩ <;>
          simp [dnsServerActions, h6, addedDns4_cons, addedDns6_cons,
            ih1, ih2, ih3, ih4]
      | false =>
        subst hb
        by_cases hi : i6 = 0
        · subst hi
          obtain ⟨ih1, ih2, ih3, ih4⟩ := ih i4 1
          simp [dnsServerActions, h6, addedDns4_cons, addedDns6_cons]
            at ih1 ih2 ih3 ih4 ⊢
          refine ⟨?_, ?_, ?_, ?_⟩ <;> split_ifs at * <;> omega
        · obtain ⟨ih1, ih2, ih3, ih4⟩ := ih i4 (i6 + 1)
          simp [dnsServerActions, h6, hi, addedDns4_cons, addedDns6_cons]
            at ih1 ih2 ih3 ih4 ⊢
          refine ⟨?_, ?_, ?_, ?_⟩ <;> split_ifs at * <;> omega
    | false =>
      by_cases hi : i4 = 0
      · subst hi
        obtain ⟨ih1, ih2, ih3, ih4⟩ := ih 1 i6
        simp [dnsServerActions, h6, addedDns4_cons, addedDns6_cons]
          at ih1 ih2 ih3 ih4 ⊢
        refine ⟨?_, ?_, ?_, ?_⟩ <;> split_ifs at * <;> omega
      · obtain ⟨ih1, ih2, ih3, ih4⟩ := ih (i4 + 1) i6
        simp [dnsServerActions, h6, hi, addedDns4_cons, addedDns6_cons]
          at ih1 ih2 ih3 ih4 ⊢
        refine ⟨?_, ?_, ?_, ?_⟩ <;> split_ifs at * <;> omega

theorem filter_winCmds (L : List Action) (hL : ∀ a ∈ L, ∃ c, a = .winCmd c) :
    L.filter (fun a => !a.isStaleCleanup) = L := by
  apply List.filter_eq_self.mpr
  intro a ha
  obtain ⟨c, rfl⟩ := hL a ha
  rfl

theorem dnsStep_counts (env : Env) (appPath : String) (pull : TunBuilderCapture) :
    ((dnsStep env appPath pull).create.filter (fun a => !a.isStaleCleanup)).length
      = (dnsStep env appPath pull).destroy.length + secondaryDnsCount pull := by
  obtain ⟨sh1, sh2⟩ := dnsServerActions_shape env.tap_index_name
    (if env.isWindowsVistaOrGreater && !env.isWindows7OrGreater then "dnsserver"
     else "dnsservers")
    (if env.isWindowsVistaOrGreater && !env.isWindows7OrGreater then ""
     else " validate=no")
    pull.block_ipv6 pull.dns_servers 0 0
  obtain ⟨c1, c2, c3, c4⟩ := dnsServerActions_counts env.tap_index_name
    (if env.isWindowsVistaOrGreater && !env.isWindows7OrGreater then "dnsserver"
     else "dnsservers")
    (if env.isWindowsVistaOrGreater && !env.isWindows7OrGreater then ""
     else " validate=no")
    pull.block_ipv6 pull.dns_servers 0 0
  simp only [dnsStep, List.filter_append, List.length_append,
    filter_winCmds _ sh1, c1, c2, c3, c4, Nat.zero_add]
  unfold secondaryDnsCount
  clear sh1 sh2 c1 c2 c3 c4
  split_ifs <;> simp_all [List.filter, Action.isStaleCleanup] <;> omega

theorem winsServerActions_spec (tin : String) (l : List WINSServer) : ∀ i : Nat,
    (winsServerActions tin l i).1.length = l.length ∧
    (winsServerActions tin l i).2.length = (if i = 0 ∧ l ≠ [] then 1 else 0) ∧
    (∀ a ∈ (winsServerActions tin l i).1, ∃ c, a = .winCmd c) ∧
    (∀ a ∈ (winsServerActions tin l i).2, ∃ c, a = .winCmd c) := by
  induction l with
  | nil =>
    intro i
    refine ⟨rfl, by simp [winsServerActions], ?_, ?_⟩ <;>
      exact fun a ha => absurd ha (List.not_mem_nil a)
  | cons w ws ih =>
    intro i
    by_cases hi : i = 0
    · subst hi
      obtain ⟨ih1, ih2, ih3, ih4⟩ := ih 1
      refine ⟨?_, ?_, ?_, ?_⟩
      · simp [winsServerActions, ih1]
      · simp [winsServerActions, ih2]
      · intro a ha
        simp [winsServerActions] at ha
        rcases ha with ha | ha
        · exact ⟨_, ha⟩
        · exact ih3 a ha
      · intro a ha
        simp [winsServerActions] at ha
        rcases ha with ha | ha
        · exact ⟨_, ha⟩
        · exact ih4 a ha
    · obtain ⟨ih1, ih2, ih3, ih4⟩ := ih (i + 1)
      refine ⟨?_, ?_, ?_, ?_⟩
      · simp [winsServerActions, hi, ih1]
      · simp [winsServerActions, hi, ih2]
      · intro a ha
        simp [winsServerActions, hi] at ha
        rcases ha with ha | ha
        · exact ⟨_, ha⟩
        · exact ih3 a ha
      · intro a ha
        simp [winsServerActions, hi] at ha
        exact ih4 a ha

theorem winsStep_counts (tin : String) (pull : TunBuilderCapture) :
    ((winsStep tin pull).create.filter (fun a => !a.isStaleCleanup)).length
      = (winsStep tin pull).destroy.length + secondaryWinsCount pull := by
  obtain ⟨h1, h2, h3, h4⟩ := winsServerActions_spec tin pull.wins_servers 0
  show ((winsServerActions tin pull.wins_servers 0).1.filter
      (fun a => !a.isStaleCleanup)).length
    = (winsServerActions tin pull.wins_servers 0).2.length + secondaryWinsCount pull
  rw [filter_winCmds _ h3, h1, h2]
  unfold secondaryWinsCount
  cases pull.wins_servers with
  | nil => simp
  | cons w ws => simp; omega

theorem flushStep_counts :
    (flushStep.create.filter (fun a => !a.isStaleCleanup)).length
      = flushStep.destroy.length := by
  simp [flushStep, Action.isStaleCleanup]

/-- C1 counterexample: with two IPv4 DNS servers the second server's
add command has no destroy counterpart of its own (the single
delete-all covers both), so the number of mutating create actions
exceeds the number of destroy actions. -/
theorem c1_counterexample :
    ¬ ((mutatingCreates (adapter_config xEnvNoW8 "" xPullTwoDns)).length
        = (adapter_config xEnvNoW8 "" xPullTwoDns).destroy.length) := by
  decide

/-- C1 amended: for every configuration whose construction completes,
the number of mutating create actions equals the number of destroy
actions plus the number of secondary DNS and WINS servers (whose add
commands are reversed by the single delete-all queued for the first
server of their family, not by destroy actions of their own); the
stale-route cleanup stays the non-mutating exception. -/
theorem c1_amended (env : Env) (appPath : String) (pull : TunBuilderCapture)
    (h : (adapter_config env appPath pull).err = none) :
    (mutatingCreates (adapter_config env appPath pull)).length
      = (adapter_config env appPath pull).destroy.length
        + secondaryDnsCount pull + secondaryWinsCount pull := by
  have hee := adapter_config_err_eq env appPath pull
  rw [h] at hee
  cases h5 : (addRoutesStep env.tap_index_name pull).err with
  | some e => rw [h5] at hee; exact absurd hee.symm (by simp)
  | none =>
    rw [h5] at hee
    have h7 : (redirectGateway4Step env.gw env.tap_index_name pull).err = none :=
      hee.symm
    have k1 := staleRouteStep_counts env.tap_index
    have k2 := ipv4AddressStep_counts env.tap_index_name pull
    have k3 := blockIpv6Step_counts pull
    have k4 := ipv6AddressStep_counts env.tap_index_name pull
    have k5 : ((addRoutesStep env.tap_index_name pull).create.filter
          (fun a => !a.isStaleCleanup)).length
        = (addRoutesStep env.tap_index_name pull).destroy.length := by
      rw [addRoutesStep_eq]
      exact addRouteActions_counts env.tap_index_name pull.vpn_ipv4
        pull.block_ipv6 pull.add_routes
    have k6 := excludeRoutesStep_counts env.gw pull
    have k7 := redirectGateway4Step_counts env.gw env.tap_index_name pull
    have k8 := redirectGateway6Step_counts env.tap_index_name pull
    have k9 := dnsStep_counts env appPath pull
    have k10 := winsStep_counts env.tap_index_name pull
    have k11 := flushStep_counts
    rw [adapter_config_decomp env appPath pull h5 h7]
    unfold mutatingCreates
    simp only [List.filter_append, List.length_append]
    omega

/-- Witness for C1 at the end-to-end example configuration, which has
no secondary DNS or WINS servers. -/
theorem c1_amended_witness :
    (mutatingCreates (adapter_config xEnv "" xPullC8)).length
      = (adapter_config xEnv "" xPullC8).destroy.length
        + secondaryDnsCount xPullC8 + secondaryWinsCount xPullC8 :=
  c1_amended xEnv "" xPullC8 (by decide)

theorem StepOut.create_subset_seq_right {s : StepOut} (t : StepOut) (h : s.err = none) :
    t.create ⊆ (s.seq t).create := by
  rw [StepOut.seq_of_err_none t h]
  exact List.subset_append_right _ _

theorem StepOut.destroy_subset_seq_right {s : StepOut} (t : StepOut) (h : s.err = none) :
    t.destroy ⊆ (s.seq t).destroy := by
  rw [StepOut.seq_of_err_none t h]
  exact List.subset_append_right _ _

theorem safe_of_ip19 (P x : String) (hl : 19 ≤ P.data.length)
    (hp : P.data.take 19 = ("netsh interface ip " : String).data) :
    SafeIPv4Cmd (.winCmd (P ++ x)) := by
  have key : ∀ (Q y : String), 19 ≤ Q.data.length →
      Q.data.take 19 = ("netsh interface ipv" : String).data →
      ¬(P ++ x = Q ++ y) := by
    intro Q y hq hqd he
    exact string_append_ne P Q x y 19 hl hq (by rw [hp, hqd]; decide) he
  refine ⟨?_, ?_, ?_⟩
  · rintro ⟨r, hr⟩
    exact key _ r (by decide) (by decide) (Action.winCmd.inj hr)
  · rintro ⟨r, hr⟩
    exact key _ r (by decide) (by decide) (Action.winCmd.inj hr)
  · rintro (⟨r, hr⟩ | ⟨r, hr⟩)
    · exact key _ r (by decide) (by decide) (Action.winCmd.inj hr)
    · exact key _ r (by decide) (by decide) (Action.winCmd.inj hr)

theorem safe_flush : SafeIPv4Cmd (.winCmd "ipconfig /flushdns") := by
  have key : ∀ (Q y : String), 1 ≤ Q.data.length →
      Q.data.take 1 = ("n" : String).data →
      ¬(("ipconfig /flushdns" : String) = Q ++ y) := by
    intro Q y hq hqd he
    exact string_ne_append "ipconfig /flushdns" Q y 1 hq (by rw [hqd]; decide) he
  refine ⟨?_, ?_, ?_⟩
  · rintro ⟨r, hr⟩
    exact key _ r (by decide) (by decide) (Action.winCmd.inj hr)
  · rintro ⟨r, hr⟩
    exact key _ r (by decide) (by decide) (Action.winCmd.inj hr)
  · rintro (⟨r, hr⟩ | ⟨r, hr⟩)
    · exact key _ r (by decide) (by decide) (Action.winCmd.inj hr)
    · exact key _ r (by decide) (by decide) (Action.winCmd.inj hr)

theorem safe_not_winCmd (a : Action) (h : ∀ c, ¬a = .winCmd c) : SafeIPv4Cmd a := by
  refine ⟨?_, ?_, ?_⟩
  · rintro ⟨r, hr⟩
    exact h _ hr
  · rintro ⟨r, hr⟩
    exact h _ hr
  · rintro (⟨r, hr⟩ | ⟨r, hr⟩) <;> exact h _ hr

theorem blackhole_safe (a : Action) (ha : a ∈ blackholeAddCmds) :
    ¬IsIPv6AddrSetCmd a ∧ ¬IsIPv6DnsCmd a := by
  simp [blackholeAddCmds, block_ipv6_net] at ha
  rcases ha with ha | ha | ha <;> subst ha <;>
    exact ⟨fun ⟨r, hr⟩ =>
        string_ne_append _ _ r 22 (by decide) (by decide) (Action.winCmd.inj hr),
      fun h => h.elim
        (fun ⟨r, hr⟩ =>
          string_ne_append _ _ r 22 (by decide) (by decide) (Action.winCmd.inj hr))
        (fun ⟨r, hr⟩ =>
          string_ne_append _ _ r 26 (by decide) (by decide) (Action.winCmd.inj hr))⟩

theorem safe_implies (a : Action) (h : SafeIPv4Cmd a) :
    (IsIPv6RouteAddCmd a → a ∈ blackholeAddCmds) ∧
    ¬IsIPv6AddrSetCmd a ∧ ¬IsIPv6DnsCmd a :=
  ⟨fun hR => absurd hR h.1, h.2.1, h.2.2⟩

theorem ipv4AddressStep_safe (tin : String) (pull : TunBuilderCapture) :
    ∀ a ∈ (ipv4AddressStep tin pull).create, SafeIPv4Cmd a := by
  intro a ha
  cases h4 : pull.vpn_ipv4 with
  | none => simp [ipv4AddressStep, h4] at ha
  | some l4 =>
    simp [ipv4AddressStep, h4, String.append_assoc] at ha
    subst ha
    exact safe_of_ip19 _ _ (by decide) (by decide)

theorem ipv6AddressStep_block (tin : String) (pull : TunBuilderCapture)
    (hb : pull.block_ipv6 = true) : (ipv6AddressStep tin pull).create = [] := by
  cases h : pull.vpn_ipv6 <;> simp [ipv6AddressStep, h, hb]

theorem addRouteActions_safe_block (tin : String) (o : Option RouteAddress)
    (l : List Route) :
    ∀ a ∈ (addRouteActions tin o true l).create, SafeIPv4Cmd a := by
  induction l with
  | nil => intro a ha; cases ha
  | cons r rs ih =>
    intro a ha
    cases h6 : r.ipv6 with
    | true =>
      simp [addRouteActions, h6, StepOut.seq] at ha
      exact ih a ha
    | false =>
      cases o with
      | none => simp [addRouteActions, h6] at ha
      | some l4 =>
        simp [addRouteActions, h6, StepOut.seq, String.append_assoc] at ha
        rcases ha with ha | ha
        · subst ha
          exact safe_of_ip19 _ _ (by decide) (by decide)
        · exact ih a ha

theorem excludeRouteActions_safe (gwIf : Nat) (gwAddr : String) (l : List Route) :
    ∀ a ∈ (excludeRouteActions gwIf gwAddr l).1, SafeIPv4Cmd a := by
  induction l with
  | nil => intro a ha; cases ha
  | cons r rs ih =>
    intro a ha
    cases h6 : r.ipv6 with
    | true =>
      simp [excludeRouteActions, h6] at ha
      exact ih a ha
    | false =>
      simp [excludeRouteActions, h6, String.append_assoc] at ha
      rcases ha with ha | ha
      · subst ha
        exact safe_of_ip19 _ _ (by decide) (by decide)
      · exact ih a ha

theorem excludeRoutesStep_safe (gw : Option Gateway) (pull : TunBuilderCapture) :
    ∀ a ∈ (excludeRoutesStep gw pull).create, SafeIPv4Cmd a := by
  intro a ha
  cases h : pull.exclude_routes.isEmpty with
  | true => simp [excludeRoutesStep, h] at ha
  | false =>
    cases gw with
    | none => simp [excludeRoutesStep, h] at ha
    | some g =>
      simp [excludeRoutesStep, h] at ha
      exact excludeRouteActions_safe g.interface_index g.gateway_address
        pull.exclude_routes a ha

theorem redirectGateway4Step_safe (gw : Option Gateway) (tin : String)
    (pull : TunBuilderCapture) :
    ∀ a ∈ (redirectGateway4Step gw tin pull).create, SafeIPv4Cmd a := by
  intro a ha
  cases hrr : pull.reroute_gw.ipv4 with
  | false => simp [redirectGateway4Step, hrr] at ha
  | true =>
    cases gw with
    | none => simp [redirectGateway4Step, hrr] at ha
    | some g =>
      cases h6 : pull.remote_address.ipv6 with
      | true =>
        cases h4 : pull.vpn_ipv4 with
        | none => simp [redirectGateway4Step, hrr, h6, h4] at ha
        | some l4 =>
          simp [redirectGateway4Step, hrr, h6, h4, String.append_assoc] at ha
          rcases ha with ha | ha <;>
            · subst ha
              exact safe_of_ip19 _ _ (by decide) (by decide)
      | false =>
        cases h4 : pull.vpn_ipv4 with
        | none =>
          simp [redirectGateway4Step, hrr, h6, h4, String.append_assoc] at ha
          subst ha
          exact safe_of_ip19 _ _ (by decide) (by decide)
        | some l4 =>
          simp [redirectGateway4Step, hrr, h6, h4, String.append_assoc] at ha
          rcases ha with ha | ha | ha <;>
            · subst ha
              exact safe_of_ip19 _ _ (by decide) (by decide)

theorem redirectGateway6Step_block (tin : String) (pull : TunBuilderCapture)
    (hb : pull.block_ipv6 = true) : (redirectGateway6Step tin pull).create = [] := by
  simp [redirectGateway6Step, hb]

theorem dnsServerActions_safe_block (tin dnsCmd validateCmd : String)
    (l : List DNSServer) : ∀ i4 i6 : Nat,
    ∀ a ∈ (dnsServerActions tin dnsCmd validateCmd true l i4 i6).1, SafeIPv4Cmd a := by
  induction l with
  | nil => intro i4 i6 a ha; cases ha
  | cons ds rest ih =>
    intro i4 i6 a ha
    cases h6 : ds.ipv6 with
    | true =>
      simp [dnsServerActions, h6] at ha
      exact ih i4 i6 a ha
    | false =>
      by_cases hi : i4 = 0
      · subst hi
        simp [dnsServerActions, h6] at ha
        rcases ha with ha | ha
        · subst ha
          exact safe_of_ip19 _ _ (by decide) (by decide)
        · exact ih 1 i6 a ha
      · simp [dnsServerActions, h6, hi] at ha
        rcases ha with ha | ha
        · subst ha
          exact safe_of_ip19 _ _ (by decide) (by decide)
        · exact ih (i4 + 1) i6 a ha

theorem dnsStep_safe_block (env : Env) (appPath : String) (pull : TunBuilderCapture)
    (hb : pull.block_ipv6 = true) :
    ∀ a ∈ (dnsStep env appPath pull).create, SafeIPv4Cmd a := by
  intro a ha
  simp only [dnsStep, List.mem_append] at ha
  rcases ha with (ha | ha) | ha
  · rw [hb] at ha
    exact dnsServerActions_safe_block _ _ _ pull.dns_servers 0 0 a ha
  · split_ifs at ha
    all_goals simp at ha
    all_goals subst ha
    all_goals exact safe_not_winCmd _ (fun c h => Action.noConfusion h)
  · split_ifs at ha
    all_goals simp at ha
    all_goals subst ha
    all_goals exact safe_not_winCmd _ (fun c h => Action.noConfusion h)

theorem winsServerActions_safe (tin : String) (l : List WINSServer) :
    ∀ i : Nat, ∀ a ∈ (winsServerActions tin l i).1, SafeIPv4Cmd a := by
  induction l with
  | nil => intro i a ha; cases ha
  | cons w ws ih =>
    intro i a ha
    by_cases hi : i = 0
    · subst hi
      simp [winsServerActions, String.append_assoc] at ha
      rcases ha with ha | ha
      · subst ha
        exact safe_of_ip19 _ _ (by decide) (by decide)
      · exact ih 1 a ha
    · simp [winsServerActions, hi, String.append_assoc] at ha
      rcases ha with ha | ha
      · subst ha
        exact safe_of_ip19 _ _ (by decide) (by decide)
      · exact ih (i + 1) a ha

theorem winsStep_safe (tin : String) (pull : TunBuilderCapture) :
    ∀ a ∈ (winsStep tin pull).create, SafeIPv4Cmd a := by
  intro a ha
  exact winsServerActions_safe tin pull.wins_servers 0 a ha

theorem adapter_config_mem_create (env : Env) (appPath : String)
    (pull : TunBuilderCapture) (a : Action)
    (ha : a ∈ (adapter_config env appPath pull).create) :
    a ∈ (staleRouteStep env.tap_index).create ∨
    a ∈ (ipv4AddressStep env.tap_index_name pull).create ∨
    a ∈ (blockIpv6Step pull).create ∨
    a ∈ (ipv6AddressStep env.tap_index_name pull).create ∨
    a ∈ (addRoutesStep env.tap_index_name pull).create ∨
    a ∈ (excludeRoutesStep env.gw pull).create ∨
    a ∈ (redirectGateway4Step env.gw env.tap_index_name pull).create ∨
    a ∈ (redirectGateway6Step env.tap_index_name pull).create ∨
    a ∈ (dnsStep env appPath pull).create ∨
    a ∈ (winsStep env.tap_index_name pull).create ∨
    a ∈ flushStep.create := by
  unfold adapter_config at ha
  rcases StepOut.mem_seq_create ha with h | h
  · rcases StepOut.mem_seq_create h with h | h
    · rcases StepOut.mem_seq_create h with h | h
      · rcases StepOut.mem_seq_create h with h | h
        · rcases StepOut.mem_seq_create h with h | h
          · rcases StepOut.mem_seq_create h with h | h
            · rcases StepOut.mem_seq_create h with h | h
              · rcases StepOut.mem_seq_create h with h | h
                · rcases StepOut.mem_seq_create h with h | h
                  · rcases StepOut.mem_seq_create h with h | h
                    · tauto
                    · tauto
                  · tauto
                · tauto
              · tauto
            · tauto
          · tauto
        · tauto
      · tauto
    · tauto
  · tauto

/-- C4: with blockIpv6 set, every queued create action is free of IPv6
address, route and DNS configuration except exactly the three blackhole
route adds over the reserved ranges, which are queued regardless of the
rest of the configuration, each with its matching delete in the destroy
list. -/
theorem c4_block_ipv6 (env : Env) (appPath : String) (pull : TunBuilderCapture)
    (hb : pull.block_ipv6 = true) :
    (∀ a ∈ (adapter_config env appPath pull).create,
        (IsIPv6RouteAddCmd a → a ∈ blackholeAddCmds) ∧
        ¬IsIPv6AddrSetCmd a ∧ ¬IsIPv6DnsCmd a) ∧
    (∀ a ∈ blackholeAddCmds, a ∈ (adapter_config env appPath pull).create) ∧
    (∀ a ∈ blackholeDeleteCmds, a ∈ (adapter_config env appPath pull).destroy) := by
  have e1 := staleRouteStep_err env.tap_index
  have e2 := ipv4AddressStep_err env.tap_index_name pull
  have E2 : ((staleRouteStep env.tap_index).seq
      (ipv4AddressStep env.tap_index_name pull)).err = none := by
    rw [StepOut.err_seq_of_none _ e1]; exact e2
  have hbc : (blockIpv6Step pull).create = blackholeAddCmds := by
    simp [blockIpv6Step, hb]
  have hbd : (blockIpv6Step pull).destroy = blackholeDeleteCmds := by
    simp [blockIpv6Step, hb]
  refine ⟨?_, ?_, ?_⟩
  · intro a ha
    rcases adapter_config_mem_create env appPath pull a ha with
      h | h | h | h | h | h | h | h | h | h | h
    · simp [staleRouteStep] at h
      subst h
      exact safe_implies _ (safe_not_winCmd _ (fun c hc => Action.noConfusion hc))
    · exact safe_implies _ (ipv4AddressStep_safe _ pull a h)
    · rw [hbc] at h
      exact ⟨fun _ => h, blackhole_safe a h⟩
    · rw [ipv6AddressStep_block _ pull hb] at h
      cases h
    · rw [addRoutesStep_eq, hb] at h
      exact safe_implies _ (addRouteActions_safe_block _ _ _ a h)
    · exact safe_implies _ (excludeRoutesStep_safe _ pull a h)
    · exact safe_implies _ (redirectGateway4Step_safe _ _ pull a h)
    · rw [redirectGateway6Step_block _ pull hb] at h
      cases h
    · exact safe_implies _ (dnsStep_safe_block env appPath pull hb a h)
    · exact safe_implies _ (winsStep_safe _ pull a h)
    · simp [flushStep] at h
      subst h
      exact safe_implies _ safe_flush
  · intro a ha
    unfold adapter_config
    apply StepOut.create_subset_seq_left
    apply StepOut.create_subset_seq_left
    apply StepOut.create_subset_seq_left
    apply StepOut.create_subset_seq_left
    apply StepOut.create_subset_seq_left
    apply StepOut.create_subset_seq_left
    apply StepOut.create_subset_seq_left
    apply StepOut.create_subset_seq_left
    apply StepOut.create_subset_seq_right _ E2
    rw [hbc]
    exact ha
  · intro a ha
    unfold adapter_config
    apply StepOut.destroy_subset_seq_left
    apply StepOut.destroy_subset_seq_left
    apply StepOut.destroy_subset_seq_left
    apply StepOut.destroy_subset_seq_left
    apply StepOut.destroy_subset_seq_left
    apply StepOut.destroy_subset_seq_left
    apply StepOut.destroy_subset_seq_left
    apply StepOut.destroy_subset_seq_left
    apply StepOut.destroy_subset_seq_right _ E2
    rw [hbd]
    exact ha

/-- Witness for C4: the first blackhole range is queued at a concrete
blocked configuration carrying IPv6 material. -/
theorem c4_block_ipv6_witness :
    Action.winCmd "netsh interface ipv6 add route 2000::/4 interface=1 store=active"
      ∈ (adapter_config xEnv "" xPullBlock).create :=
  (c4_block_ipv6 xEnv "" xPullBlock rfl).2.1 _ (by decide)

theorem adapter_config_err_none_parts (env : Env) (appPath : String)
    (pull : TunBuilderCapture) (h : (adapter_config env appPath pull).err = none) :
    (addRoutesStep env.tap_index_name pull).err = none ∧
    (redirectGateway4Step env.gw env.tap_index_name pull).err = none := by
  have hee := adapter_config_err_eq env appPath pull
  rw [h] at hee
  cases h5 : (addRoutesStep env.tap_index_name pull).err with
  | some e => rw [h5] at hee; exact absurd hee.symm (by simp)
  | none => rw [h5] at hee; exact ⟨rfl, hee.symm⟩

theorem wfp_filter_winCmds (L : List Action) (hL : ∀ a ∈ L, ∃ c, a = .winCmd c) :
    L.filter Action.isWfpAction = [] := by
  apply List.filter_eq_nil_iff.mpr
  intro a ha
  obtain ⟨c, rfl⟩ := hL a ha
  simp [Action.isWfpAction]

theorem staleRouteStep_wfp (i : Nat) :
    (staleRouteStep i).create.filter Action.isWfpAction = [] ∧
    (staleRouteStep i).destroy.filter Action.isWfpAction = [] := by
  simp [staleRouteStep, Action.isWfpAction, List.filter]

theorem ipv4AddressStep_wfp (tin : String) (pull : TunBuilderCapture) :
    (ipv4AddressStep tin pull).create.filter Action.isWfpAction = [] ∧
    (ipv4AddressStep tin pull).destroy.filter Action.isWfpAction = [] := by
  cases h : pull.vpn_ipv4 <;>
    simp [ipv4AddressStep, h, Action.isWfpAction, List.filter]

theorem blockIpv6Step_wfp (pull : TunBuilderCapture) :
    (blockIpv6Step pull).create.filter Action.isWfpAction = [] ∧
    (blockIpv6Step pull).destroy.filter Action.isWfpAction = [] := by
  cases h : pull.block_ipv6 <;>
    simp [blockIpv6Step, h, blackholeAddCmds, blackholeDeleteCmds, block_ipv6_net,
      Action.isWfpAction, List.filter]

theorem ipv6AddressStep_wfp (tin : String) (pull : TunBuilderCapture) :
    (ipv6AddressStep tin pull).create.filter Action.isWfpAction = [] ∧
    (ipv6AddressStep tin pull).destroy.filter Action.isWfpAction = [] := by
  cases h : pull.vpn_ipv6 <;> cases hb : pull.block_ipv6 <;>
    simp [ipv6AddressStep, h, hb, Action.isWfpAction, List.filter]

theorem addRouteActions_wfp (tin : String) (o : Option RouteAddress) (b : Bool)
    (l : List Route) :
    (addRouteActions tin o b l).create.filter Action.isWfpAction = [] ∧
    (addRouteActions tin o b l).destroy.filter Action.isWfpAction = [] := by
  induction l with
  | nil => exact ⟨rfl, rfl⟩
  | cons r rs ih =>
    cases h6 : r.ipv6 with
    | true =>
      cases hb : b <;>
        simp [addRouteActions, h6, hb, StepOut.seq, List.filter_append,
          Action.isWfpAction, List.filter] <;>
        simpa [hb] using ih
    | false =>
      cases o with
      | none => simp [addRouteActions, h6]
      | some l4 =>
        simp [addRouteActions, h6, StepOut.seq, List.filter_append,
          Action.isWfpAction, List.filter]
        simpa using ih

theorem excludeRoutesStep_wfp (gw : Option Gateway) (pull : TunBuilderCapture) :
    (excludeRoutesStep gw pull).create.filter Action.isWfpAction = [] ∧
    (excludeRoutesStep gw pull).destroy.filter Action.isWfpAction = [] := by
  have key : ∀ l : List Route,
      (excludeRouteActions (Option.getD gw ⟨0, ""⟩).interface_index
          (Option.getD gw ⟨0, ""⟩).gateway_address l).1.filter Action.isWfpAction = [] ∧
      (excludeRouteActions (Option.getD gw ⟨0, ""⟩).interface_index
          (Option.getD gw ⟨0, ""⟩).gateway_address l).2.filter Action.isWfpAction = [] := by
    intro l
    induction l with
    | nil => exact ⟨rfl, rfl⟩
    | cons r rs ih =>
      cases h6 : r.ipv6 <;>
        simp [excludeRouteActions, h6, Action.isWfpAction, List.filter] <;>
        simpa using ih
  cases h : pull.exclude_routes.isEmpty with
  | true => simp [excludeRoutesStep, h]
  | false =>
    cases gw with
    | none => simp [excludeRoutesStep, h]
    | some g =>
      simpa [excludeRoutesStep, h] using key pull.exclude_routes

theorem redirectGateway4Step_wfp (gw : Option Gateway) (tin : String)
    (pull : TunBuilderCapture) :
    (redirectGateway4Step gw tin pull).create.filter Action.isWfpAction = [] ∧
    (redirectGateway4Step gw tin pull).destroy.filter Action.isWfpAction = [] := by
  cases hrr : pull.reroute_gw.ipv4 <;> cases gw <;>
    cases h6 : pull.remote_address.ipv6 <;> cases h4 : pull.vpn_ipv4 <;>
    simp [redirectGateway4Step, hrr, h6, h4, List.filter_append,
      Action.isWfpAction, List.filter]

theorem redirectGateway6Step_wfp (tin : String) (pull : TunBuilderCapture) :
    (redirectGateway6Step tin pull).create.filter Action.isWfpAction = [] ∧
    (redirectGateway6Step tin pull).destroy.filter Action.isWfpAction = [] := by
  cases h : pull.reroute_gw.ipv6 <;> cases hb : pull.block_ipv6 <;>
    simp [redirectGateway6Step, h, hb, Action.isWfpAction, List.filter]

theorem winsStep_wfp (tin : String) (pull : TunBuilderCapture) :
    (winsStep tin pull).create.filter Action.isWfpAction = [] ∧
    (winsStep tin pull).destroy.filter Action.isWfpAction = [] := by
  obtain ⟨h1, h2, h3, h4⟩ := winsServerActions_spec tin pull.wins_servers 0
  exact ⟨wfp_filter_winCmds _ h3, wfp_filter_winCmds _ h4⟩

theorem flushStep_wfp :
    flushStep.create.filter Action.isWfpAction = [] ∧
    flushStep.destroy.filter Action.isWfpAction = [] := by
  simp [flushStep, Action.isWfpAction, List.filter]

theorem dnsStep_wfp_pos (env : Env) (appPath : String) (pull : TunBuilderCapture)
    (h8 : env.isWindows8OrGreater = true) (hap : ¬appPath = "")
    (hdns : addedDns4 pull.dns_servers ≠ 0 ∨
      addedDns6 pull.block_ipv6 pull.dns_servers ≠ 0) :
    (dnsStep env appPath pull).create.filter Action.isWfpAction
        = [Action.wfp appPath env.tap_index true] ∧
    (dnsStep env appPath pull).destroy.filter Action.isWfpAction
        = [Action.wfp appPath env.tap_index false] := by
  obtain ⟨sh1, sh2⟩ := dnsServerActions_shape env.tap_index_name
    (if env.isWindowsVistaOrGreater && !env.isWindows7OrGreater then "dnsserver"
     else "dnsservers")
    (if env.isWindowsVistaOrGreater && !env.isWindows7OrGreater then ""
     else " validate=no")
    pull.block_ipv6 pull.dns_servers 0 0
  obtain ⟨c1, c2, c3, c4⟩ := dnsServerActions_counts env.tap_index_name
    (if env.isWindowsVistaOrGreater && !env.isWindows7OrGreater then "dnsserver"
     else "dnsservers")
    (if env.isWindowsVistaOrGreater && !env.isWindows7OrGreater then ""
     else " validate=no")
    pull.block_ipv6 pull.dns_servers 0 0
  have hd : (decide (addedDns4 pull.dns_servers ≠ 0)
      || decide (addedDns6 pull.block_ipv6 pull.dns_servers ≠ 0)) = true := by
    rcases hdns with h | h <;> simp [h]
  simp only [dnsStep, List.filter_append, wfp_filter_winCmds _ sh1,
    wfp_filter_winCmds _ sh2, c3, c4, Nat.zero_add]
  simp [h8, hap, hd, hdns, Action.isWfpAction, List.filter]

/-- C9 counterexample: on a platform with leak-protection support and a
configured DNS server, an empty application path yields zero WFP
actions, contradicting the claim as stated. -/
theorem c9_counterexample :
    xEnv.isWindows8OrGreater = true ∧ xPullOneDns.dns_servers ≠ [] ∧
    (adapter_config xEnv "" xPullOneDns).create.filter Action.isWfpAction = [] := by
  decide

/-- C9 amended: when the platform supports leak-protection filtering,
the caller's application path is non-empty, at least one DNS server is
actually added (IPv6 servers do not count while blockIpv6 is set), and
the construction completes, exactly one WFP leak-protection create
action and one matching destroy action are queued. -/
theorem c9_amended (env : Env) (appPath : String) (pull : TunBuilderCapture)
    (h8 : env.isWindows8OrGreater = true) (hap : ¬appPath = "")
    (hdns : addedDns4 pull.dns_servers ≠ 0 ∨
      addedDns6 pull.block_ipv6 pull.dns_servers ≠ 0)
    (herr : (adapter_config env appPath pull).err = none) :
    (adapter_config env appPath pull).create.filter Action.isWfpAction
        = [Action.wfp appPath env.tap_index true] ∧
    (adapter_config env appPath pull).destroy.filter Action.isWfpAction
        = [Action.wfp appPath env.tap_index false] := by
  obtain ⟨h5, h7⟩ := adapter_config_err_none_parts env appPath pull herr
  obtain ⟨w1c, w1d⟩ := staleRouteStep_wfp env.tap_index
  obtain ⟨w2c, w2d⟩ := ipv4AddressStep_wfp env.tap_index_name pull
  obtain ⟨w3c, w3d⟩ := blockIpv6Step_wfp pull
  obtain ⟨w4c, w4d⟩ := ipv6AddressStep_wfp env.tap_index_name pull
  obtain ⟨w5c, w5d⟩ : (addRoutesStep env.tap_index_name pull).create.filter
        Action.isWfpAction = [] ∧
      (addRoutesStep env.tap_index_name pull).destroy.filter Action.isWfpAction = [] := by
    rw [addRoutesStep_eq]
    exact addRouteActions_wfp env.tap_index_name pull.vpn_ipv4 pull.block_ipv6
      pull.add_routes
  obtain ⟨w6c, w6d⟩ := excludeRoutesStep_wfp env.gw pull
  obtain ⟨w7c, w7d⟩ := redirectGateway4Step_wfp env.gw env.tap_index_name pull
  obtain ⟨w8c, w8d⟩ := redirectGateway6Step_wfp env.tap_index_name pull
  obtain ⟨w9c, w9d⟩ := dnsStep_wfp_pos env appPath pull h8 hap hdns
  obtain ⟨w10c, w10d⟩ := winsStep_wfp env.tap_index_name pull
  obtain ⟨w11c, w11d⟩ := flushStep_wfp
  rw [adapter_config_decomp env appPath pull h5 h7]
  constructor <;>
    simp only [List.filter_append, w1c, w1d, w2c, w2d, w3c, w3d, w4c, w4d,
      w5c, w5d, w6c, w6d, w7c, w7d, w8c, w8d, w9c, w9d, w10c, w10d, w11c, w11d] <;>
    simp

/-- Witness for C9 at a concrete configuration with one IPv4 DNS server
and a non-empty application path. -/
theorem c9_amended_witness :
    (adapter_config xEnv "C:\\app.exe" xPullOneDns).create.filter Action.isWfpAction
        = [Action.wfp "C:\\app.exe" 9 true] ∧
    (adapter_config xEnv "C:\\app.exe" xPullOneDns).destroy.filter Action.isWfpAction
        = [Action.wfp "C:\\app.exe" 9 false] :=
  c9_amended xEnv "C:\\app.exe" xPullOneDns rfl (by decide) (by decide) (by decide)

end TunWin
